import Mathlib

/-! # HelloVulkan: device selection and swap-chain negotiation

A shallow embedding of `src/Code/HelloTriangleApp.h`, and of the queue-family search
of `src/Code/utility.cpp` with its use in `src/Code/main.cpp`.  The Vulkan driver and the
GLFW window are external collaborators: every answer they give is a field of
`Driver`, so each function of the application becomes a pure function of the
driver's answers.  `uint32_t` values are natural numbers, reduced modulo `2^32`
where the source performs arithmetic on them.
-/

namespace HelloVulkan

/-! ## Constants of the Vulkan headers used by the source -/

/-- Largest `uint32_t`, `std::numeric_limits<uint32_t>::max()`. -/
def UINT32_MAX : Nat := 4294967295

/-- Bit of `VkQueueFlags` marking a graphics-capable queue family. -/
def VK_QUEUE_GRAPHICS_BIT : Nat := 1

/-- Value of `VkPhysicalDeviceType` for a discrete GPU. -/
def VK_PHYSICAL_DEVICE_TYPE_DISCRETE_GPU : Nat := 2

/-- Value of `VkPhysicalDeviceType` for an integrated GPU. -/
def VK_PHYSICAL_DEVICE_TYPE_INTEGRATED_GPU : Nat := 1

/-- Name of the swap-chain device extension. -/
def VK_KHR_SWAPCHAIN_EXTENSION_NAME : String := "VK_KHR_swapchain"

/-- Name of the debug-utils instance extension. -/
def VK_EXT_DEBUG_UTILS_EXTENSION_NAME : String := "VK_EXT_debug_utils"

def VK_FORMAT_B8G8R8A8_SRGB : Nat := 50
def VK_COLOR_SPACE_SRGB_NONLINEAR_KHR : Nat := 0
def VK_PRESENT_MODE_IMMEDIATE_KHR : Nat := 0
def VK_PRESENT_MODE_MAILBOX_KHR : Nat := 1
def VK_PRESENT_MODE_FIFO_KHR : Nat := 2
def VK_SHARING_MODE_EXCLUSIVE : Nat := 0
def VK_SHARING_MODE_CONCURRENT : Nat := 1
def VK_IMAGE_USAGE_COLOR_ATTACHMENT_BIT : Nat := 16
def VK_COMPOSITE_ALPHA_OPAQUE_BIT_KHR : Nat := 1

/-! ## Constants of the source -/

/-- The `validationLayers` vector of the source. -/
def validationLayers : List String := ["VK_LAYER_KHRONOS_validation"]

/-- The `deviceExtensions` vector of the source. -/
def deviceExtensions : List String := [VK_KHR_SWAPCHAIN_EXTENSION_NAME]

/-! ## Data model -/

/-- A physical-device handle written by `vkEnumeratePhysicalDevices`; such a handle
is never `VK_NULL_HANDLE`, which is modelled by `none` where the source stores it. -/
abbrev VkPhysicalDevice := Nat

/-- A surface handle. -/
abbrev VkSurfaceKHR := Nat

/-- The source's `QueueFamilyIndices`: two `std::optional<uint32_t>`. -/
structure QueueFamilyIndices where
  graphicsFamily : Option Nat
  presentFamily : Option Nat
deriving DecidableEq

/-- `QueueFamilyIndices::isComplete`. -/
def QueueFamilyIndices.isComplete (q : QueueFamilyIndices) : Bool :=
  q.graphicsFamily.isSome && q.presentFamily.isSome

/-- The one field of `VkQueueFamilyProperties` the source reads. -/
structure VkQueueFamilyProperties where
  queueFlags : Nat
deriving DecidableEq

/-- A (format, colour space) pair. -/
structure VkSurfaceFormatKHR where
  format : Nat
  colorSpace : Nat
deriving DecidableEq

structure VkExtent2D where
  width : Nat
  height : Nat
deriving DecidableEq

/-- The fields of `VkSurfaceCapabilitiesKHR` the source reads. -/
structure VkSurfaceCapabilitiesKHR where
  minImageCount : Nat
  maxImageCount : Nat
  currentExtent : VkExtent2D
  minImageExtent : VkExtent2D
  maxImageExtent : VkExtent2D
  currentTransform : Nat
deriving DecidableEq

/-- The source's `SwapChainSupportDetails`. -/
structure SwapChainSupportDetails where
  capabilities : VkSurfaceCapabilitiesKHR
  formats : List VkSurfaceFormatKHR
  presentModes : List Nat
deriving DecidableEq

/-- Answers of the Vulkan driver and of the GLFW window to the calls the source
makes.  A Boolean field named `...Ok` tells whether the call returns `VK_SUCCESS`. -/
structure Driver where
  /-- `vkEnumerateInstanceLayerProperties`: names of the installed layers. -/
  instanceLayers : List String
  /-- `vkEnumerateInstanceExtensionProperties`: names of the instance extensions. -/
  instanceExtensions : List String
  /-- `glfwGetRequiredInstanceExtensions`. -/
  glfwRequiredInstanceExtensions : List String
  /-- `vkCreateInstance`. -/
  createInstanceOk : Bool
  /-- `vkGetInstanceProcAddr`: whether the named function is found. -/
  instanceProcAddr : String → Bool
  /-- `vkCreateDebugUtilsMessengerEXT`, when it is found. -/
  createDebugMessengerOk : Bool
  /-- `glfwCreateWindowSurface`: the surface handle, or `none` on failure. -/
  windowSurface : Option VkSurfaceKHR
  /-- `vkEnumeratePhysicalDevices`. -/
  physicalDevices : List VkPhysicalDevice
  /-- `vkGetPhysicalDeviceProperties`, field `deviceType`. -/
  deviceType : VkPhysicalDevice → Nat
  /-- `vkGetPhysicalDeviceQueueFamilyProperties`. -/
  queueFamilyProperties : VkPhysicalDevice → List VkQueueFamilyProperties
  /-- `vkGetPhysicalDeviceSurfaceSupportKHR` for a device, family index and surface. -/
  surfaceSupport : VkPhysicalDevice → Nat → VkSurfaceKHR → Bool
  /-- `vkEnumerateDeviceExtensionProperties`: the extension names. -/
  deviceExtensionProperties : VkPhysicalDevice → List String
  /-- `vkGetPhysicalDeviceSurfaceCapabilitiesKHR`. -/
  surfaceCapabilities : VkPhysicalDevice → VkSurfaceKHR → VkSurfaceCapabilitiesKHR
  /-- `vkGetPhysicalDeviceSurfaceFormatsKHR`. -/
  surfaceFormats : VkPhysicalDevice → VkSurfaceKHR → List VkSurfaceFormatKHR
  /-- `vkGetPhysicalDeviceSurfacePresentModesKHR`. -/
  surfacePresentModes : VkPhysicalDevice → VkSurfaceKHR → List Nat
  /-- `vkCreateDevice`. -/
  createDeviceOk : Bool
  /-- `glfwGetFramebufferSize`: two `int`s. -/
  framebufferSize : Int × Int
  /-- `vkCreateSwapchainKHR`. -/
  createSwapchainOk : Bool
  /-- `vkGetSwapchainImagesKHR`: the image handles of the created chain. -/
  swapchainImages : List Nat
  /-- `vkCreateImageView` for the image at a position of the chain. -/
  createImageViewOk : Nat → Bool
  /-- Number of `glfwPollEvents` rounds before `glfwWindowShouldClose` answers true. -/
  pollsBeforeClose : Nat

/-! ## Queue families -/

/-- One round of the loop of `findQueueFamilies`: the updates made for the family at
position `index`, before the completeness test. -/
def findQueueFamiliesStep (drv : Driver) (surface : VkSurfaceKHR) (dev : VkPhysicalDevice)
    (queueFamily : VkQueueFamilyProperties) (index : Nat) (indices : QueueFamilyIndices) :
    QueueFamilyIndices :=
  let indices1 : QueueFamilyIndices :=
    if queueFamily.queueFlags &&& VK_QUEUE_GRAPHICS_BIT ≠ 0 then
      ⟨some index, indices.presentFamily⟩
    else indices
  let presentSupport := drv.surfaceSupport dev index surface
  if presentSupport then ⟨indices1.graphicsFamily, some index⟩ else indices1

/-- The range-for loop of `findQueueFamilies`, with its `break` once both indices
are set; `index` is the loop counter. -/
def findQueueFamiliesLoop (drv : Driver) (surface : VkSurfaceKHR) (dev : VkPhysicalDevice) :
    List VkQueueFamilyProperties → Nat → QueueFamilyIndices → QueueFamilyIndices
  | [], _, indices => indices
  | queueFamily :: rest, index, indices =>
    let indices2 := findQueueFamiliesStep drv surface dev queueFamily index indices
    if indices2.isComplete then indices2
    else findQueueFamiliesLoop drv surface dev rest (index + 1) indices2

/-- `HelloTriangleApp::findQueueFamilies`. -/
def findQueueFamilies (drv : Driver) (surface : VkSurfaceKHR) (dev : VkPhysicalDevice) :
    QueueFamilyIndices :=
  findQueueFamiliesLoop drv surface dev (drv.queueFamilyProperties dev) 0 ⟨none, none⟩

/-! ## Device extensions -/

/-- Construction of a `std::set<std::string>` from a range: the distinct elements
(the order of a set is not observed by the source). -/
def stdSetOfList (xs : List String) : List String := xs.eraseDups

/-- `std::set::erase(key)`. -/
def stdSetErase (s : List String) (key : String) : List String :=
  s.filter (fun x => x != key)

/-- `HelloTriangleApp::checkDeviceExtensionsSupport`. -/
def checkDeviceExtensionsSupport (drv : Driver) (dev : VkPhysicalDevice) : Bool :=
  let availableExtensions := drv.deviceExtensionProperties dev
  let requiredExtensions := stdSetOfList deviceExtensions
  (availableExtensions.foldl stdSetErase requiredExtensions).isEmpty

/-! ## Failures -/

/-- Ways in which a function of the source fails to return. -/
inductive Failure where
  /-- A `std::runtime_error` with its message. -/
  | runtimeError (what : String)
  /-- The `std::bad_optional_access` thrown by `std::optional::value`. -/
  | badOptionalAccess
  /-- Undefined behaviour. -/
  | undefinedBehaviour
deriving DecidableEq

deriving instance DecidableEq for Except

/-- `std::optional::value`. -/
def optionalValue (o : Option Nat) : Except Failure Nat :=
  match o with
  | some v => Except.ok v
  | none => Except.error Failure.badOptionalAccess

/-! ## Swap-chain support -/

/-- Contents of a vector resized from empty to `size` value-initialised entries
(zeros) after the driver has written `written`, of at most `size` entries, from its
start. -/
def resizedAndFilled (size : Nat) (written : List Nat) : List Nat :=
  written ++ List.replicate (size - written.length) 0

/-- `HelloTriangleApp::querySwapChainSupport`.  Both `if`s of the source test
`formatsCount`, and the present-mode vector is resized to `formatsCount` while the
driver is told that it holds `presentModesCount` entries: when the driver reports
more presentation modes than surface formats it writes past the end of the vector,
which is undefined behaviour. -/
def querySwapChainSupport (drv : Driver) (surface : VkSurfaceKHR) (dev : VkPhysicalDevice) :
    Except Failure SwapChainSupportDetails :=
  let capabilities := drv.surfaceCapabilities dev surface
  let formatsCount := (drv.surfaceFormats dev surface).length
  let formats := if formatsCount ≠ 0 then drv.surfaceFormats dev surface else []
  let presentModesCount := (drv.surfacePresentModes dev surface).length
  if formatsCount ≠ 0 then
    if presentModesCount > formatsCount then Except.error Failure.undefinedBehaviour
    else
      Except.ok ⟨capabilities, formats,
        resizedAndFilled formatsCount (drv.surfacePresentModes dev surface)⟩
  else Except.ok ⟨capabilities, formats, []⟩

/-! ## Device selection -/

/-- `HelloTriangleApp::isDeviceSuitable`, which queries the swap-chain support of
the device before any of its tests. -/
def isDeviceSuitable (drv : Driver) (surface : VkSurfaceKHR) (dev : VkPhysicalDevice) :
    Except Failure Bool :=
  match querySwapChainSupport drv surface dev with
  | Except.error e => Except.error e
  | Except.ok swapChainSupport =>
    let swapChainAdequate :=
      !swapChainSupport.formats.isEmpty && !swapChainSupport.presentModes.isEmpty
    Except.ok (drv.deviceType dev == VK_PHYSICAL_DEVICE_TYPE_DISCRETE_GPU
      && (findQueueFamilies drv surface dev).isComplete
      && checkDeviceExtensionsSupport drv dev
      && swapChainAdequate)

/-- Message of the exception thrown when no device is enumerated. -/
def errNoDevices : String := "Failed to find GPUs with Vulkan support!"

/-- Message of the exception thrown when no enumerated device is suitable. -/
def errNoSuitableDevice : String := "Failed to find a suitable GPU!"

/-- The range-for loop of `pickPhysicalDevice` with its `break`: the value of the
member `physicalDevice` after the loop, `none` being `VK_NULL_HANDLE`. -/
def pickPhysicalDeviceLoop (drv : Driver) (surface : VkSurfaceKHR) :
    List VkPhysicalDevice → Except Failure (Option VkPhysicalDevice)
  | [] => Except.ok none
  | dev :: rest =>
    match isDeviceSuitable drv surface dev with
    | Except.error e => Except.error e
    | Except.ok true => Except.ok (some dev)
    | Except.ok false => pickPhysicalDeviceLoop drv surface rest

/-- `HelloTriangleApp::pickPhysicalDevice`: the selected handle, or the
`std::runtime_error` thrown with its message, or the undefined behaviour met while
a device was examined. -/
def pickPhysicalDevice (drv : Driver) (surface : VkSurfaceKHR) :
    Except Failure VkPhysicalDevice :=
  let devices := drv.physicalDevices
  if devices.length = 0 then Except.error (Failure.runtimeError errNoDevices)
  else
    match pickPhysicalDeviceLoop drv surface devices with
    | Except.error e => Except.error e
    | Except.ok (some dev) => Except.ok dev
    | Except.ok none => Except.error (Failure.runtimeError errNoSuitableDevice)

/-! ## Swap-chain negotiation -/

/-- The range-for loop of `chooseSwapSurfaceFormat`: the first entry equal to the
preferred pair, if any. -/
def chooseSwapSurfaceFormatLoop : List VkSurfaceFormatKHR → Option VkSurfaceFormatKHR
  | [] => none
  | availableFormat :: rest =>
    if availableFormat.format = VK_FORMAT_B8G8R8A8_SRGB
        ∧ availableFormat.colorSpace = VK_COLOR_SPACE_SRGB_NONLINEAR_KHR then
      some availableFormat
    else chooseSwapSurfaceFormatLoop rest

/-- `HelloTriangleApp::chooseSwapSurfaceFormat`; `none` is the out-of-bounds read
`availableFormats[0]` on an empty vector. -/
def chooseSwapSurfaceFormat (availableFormats : List VkSurfaceFormatKHR) :
    Option VkSurfaceFormatKHR :=
  match chooseSwapSurfaceFormatLoop availableFormats with
  | some availableFormat => some availableFormat
  | none => availableFormats.head?

/-- `HelloTriangleApp::chooseSwapPresentMode`. -/
def chooseSwapPresentMode : List Nat → Nat
  | [] => VK_PRESENT_MODE_FIFO_KHR
  | availablePresentMode :: rest =>
    if availablePresentMode = VK_PRESENT_MODE_MAILBOX_KHR then availablePresentMode
    else chooseSwapPresentMode rest

/-- `static_cast<uint32_t>` of an `int`. -/
def castUInt32 (i : Int) : Nat := (i % 4294967296).toNat

/-- `std::clamp(v, lo, hi)`: `(v < lo) ? lo : (hi < v) ? hi : v`.  The standard
requires `lo ≤ hi`. -/
def stdClamp (v lo hi : Nat) : Nat :=
  if v < lo then lo else if hi < v then hi else v

/-- `HelloTriangleApp::chooseSwapExtent`; `framebuffer` is what
`glfwGetFramebufferSize` stores into `width` and `height`. -/
def chooseSwapExtent (capabilities : VkSurfaceCapabilitiesKHR) (framebuffer : Int × Int) :
    VkExtent2D :=
  if capabilities.currentExtent.width ≠ UINT32_MAX then capabilities.currentExtent
  else
    let actualExtent : VkExtent2D := ⟨castUInt32 framebuffer.1, castUInt32 framebuffer.2⟩
    ⟨stdClamp actualExtent.width capabilities.minImageExtent.width
        capabilities.maxImageExtent.width,
      stdClamp actualExtent.height capabilities.minImageExtent.height
        capabilities.maxImageExtent.height⟩

/-- The `imageCount` computed at the start of `createSwapChain`, in `uint32_t`
arithmetic. -/
def chooseImageCount (capabilities : VkSurfaceCapabilitiesKHR) : Nat :=
  let imageCount := (capabilities.minImageCount + 1) % 4294967296
  if capabilities.maxImageCount > 0 ∧ imageCount > capabilities.maxImageCount then
    capabilities.maxImageCount
  else imageCount

/-- The fields of `VkSwapchainCreateInfoKHR` set by `createSwapChain`.
`pQueueFamilyIndices` is `none` for a null pointer, otherwise the array pointed to. -/
structure VkSwapchainCreateInfoKHR where
  surface : VkSurfaceKHR
  minImageCount : Nat
  imageFormat : Nat
  imageColorSpace : Nat
  imageExtent : VkExtent2D
  imageArrayLayers : Nat
  imageUsage : Nat
  imageSharingMode : Nat
  queueFamilyIndexCount : Nat
  pQueueFamilyIndices : Option (List Nat)
  preTransform : Nat
  compositeAlpha : Nat
  presentMode : Nat
  clipped : Bool
deriving DecidableEq

/-- The `createInfo` that `createSwapChain` passes to `vkCreateSwapchainKHR` for the
selected device. -/
def swapChainCreateInfo (drv : Driver) (surface : VkSurfaceKHR)
    (physicalDevice : VkPhysicalDevice) : Except Failure VkSwapchainCreateInfoKHR :=
  match querySwapChainSupport drv surface physicalDevice with
  | Except.error e => Except.error e
  | Except.ok swapChainSupport =>
    match chooseSwapSurfaceFormat swapChainSupport.formats with
    | none => Except.error Failure.undefinedBehaviour
    | some surfaceFormat =>
      let presentMode := chooseSwapPresentMode swapChainSupport.presentModes
      let swapChainExtent := chooseSwapExtent swapChainSupport.capabilities drv.framebufferSize
      let imageCount := chooseImageCount swapChainSupport.capabilities
      let indices := findQueueFamilies drv surface physicalDevice
      match optionalValue indices.graphicsFamily with
      | Except.error e => Except.error e
      | Except.ok graphics =>
        match optionalValue indices.presentFamily with
        | Except.error e => Except.error e
        | Except.ok present =>
          let queueFamilyIndices := [graphics, present]
          if indices.graphicsFamily ≠ indices.presentFamily then
            Except.ok ⟨surface, imageCount, surfaceFormat.format, surfaceFormat.colorSpace,
              swapChainExtent, 1, VK_IMAGE_USAGE_COLOR_ATTACHMENT_BIT,
              VK_SHARING_MODE_CONCURRENT, 2, some queueFamilyIndices,
              swapChainSupport.capabilities.currentTransform,
              VK_COMPOSITE_ALPHA_OPAQUE_BIT_KHR, presentMode, true⟩
          else
            Except.ok ⟨surface, imageCount, surfaceFormat.format, surfaceFormat.colorSpace,
              swapChainExtent, 1, VK_IMAGE_USAGE_COLOR_ATTACHMENT_BIT,
              VK_SHARING_MODE_EXCLUSIVE, 0, none,
              swapChainSupport.capabilities.currentTransform,
              VK_COMPOSITE_ALPHA_OPAQUE_BIT_KHR, presentMode, true⟩

/-! ## Logical device -/

/-- Insertion into a `std::set<uint32_t>`, kept as an increasing list. -/
def stdSetInsert : List Nat → Nat → List Nat
  | [], x => [x]
  | y :: ys, x =>
    if x < y then x :: y :: ys
    else if x = y then y :: ys
    else y :: stdSetInsert ys x

/-- The fields of `VkDeviceQueueCreateInfo` set by `createLogicalDevice`; the
priority `1.0f` is the rational `1`. -/
structure VkDeviceQueueCreateInfo where
  queueFamilyIndex : Nat
  queueCount : Nat
  queuePriority : Rat
deriving DecidableEq

/-- What `createLogicalDevice` asks of the driver: the queue-creation requests and
extensions of `vkCreateDevice`, and the families of the two `vkGetDeviceQueue` calls. -/
structure LogicalDeviceRequest where
  queueCreateInfos : List VkDeviceQueueCreateInfo
  enabledExtensionNames : List String
  graphicsQueueFamily : Nat
  presentQueueFamily : Nat
deriving DecidableEq

/-- `HelloTriangleApp::createLogicalDevice`. -/
def createLogicalDevice (drv : Driver) (surface : VkSurfaceKHR)
    (physicalDevice : VkPhysicalDevice) : Except Failure LogicalDeviceRequest :=
  let indices := findQueueFamilies drv surface physicalDevice
  match optionalValue indices.graphicsFamily with
  | Except.error e => Except.error e
  | Except.ok graphics =>
    match optionalValue indices.presentFamily with
    | Except.error e => Except.error e
    | Except.ok present =>
      let uniqueQueueFamilies := stdSetInsert (stdSetInsert [] graphics) present
      let queuePriority : Rat := 1
      let queueCreateInfos : List VkDeviceQueueCreateInfo :=
        uniqueQueueFamilies.map (fun queueFamily => ⟨queueFamily, 1, queuePriority⟩)
      if drv.createDeviceOk then
        Except.ok ⟨queueCreateInfos, deviceExtensions, graphics, present⟩
      else Except.error (Failure.runtimeError "Failed to create the logical device!")

/-! ## Bring-up and shutdown, with a log of the resources created and destroyed -/

/-- The resources whose creation and destruction `run` performs.  An image view is
named by the position of its image in the swap chain.  `glfwInit` and
`glfwTerminate`, the first and the last call of a run, create and destroy none of
them and are not logged. -/
inductive Resource where
  | window
  | vkInstance
  | debugMessenger
  | surface
  | device
  | swapChain
  | imageView (index : Nat)
deriving DecidableEq

/-- A creation or destruction call, as recorded in the log. -/
inductive Event where
  | create (r : Resource)
  | destroy (r : Resource)
deriving DecidableEq

/-- The members of `HelloTriangleApp` that later stages read, and the log of
creation and destruction calls made so far. -/
structure App where
  surface : VkSurfaceKHR
  physicalDevice : Option VkPhysicalDevice
  swapChainImages : List Nat
  swapChainImageFormat : Nat
  swapChainExtent : VkExtent2D
  swapChainImageViews : List Resource
  log : List Event

/-- Appends one event to the log. -/
def App.record (app : App) (e : Event) : App :=
  ⟨app.surface, app.physicalDevice, app.swapChainImages, app.swapChainImageFormat,
    app.swapChainExtent, app.swapChainImageViews, app.log ++ [e]⟩

/-- `HelloTriangleApp::initWindow`: `glfwCreateWindow` creates the window. -/
def initWindow (app : App) : App := app.record (Event.create Resource.window)

/-- `HelloTriangleApp::getRequiredExtensions`. -/
def getRequiredExtensions (drv : Driver) (enableValidationLayers : Bool) : List String :=
  if enableValidationLayers then
    drv.glfwRequiredInstanceExtensions ++ [VK_EXT_DEBUG_UTILS_EXTENSION_NAME]
  else drv.glfwRequiredInstanceExtensions

/-- `HelloTriangleApp::checkValidationLayersSupport`. -/
def checkValidationLayersSupport (drv : Driver) : Bool :=
  validationLayers.all (fun layerName =>
    drv.instanceLayers.any (fun layerProperties => layerName == layerProperties))

/-- `HelloTriangleApp::checkExtensionsSupport`. -/
def checkExtensionsSupport (drv : Driver) (glfwExtensions : List String) : Bool :=
  glfwExtensions.all (fun extensionName =>
    drv.instanceExtensions.any (fun extension => extensionName == extension))

/-- `HelloTriangleApp::createInstance`. -/
def createInstance (drv : Driver) (enableValidationLayers : Bool) (app : App) :
    Except Failure App :=
  if enableValidationLayers && !checkValidationLayersSupport drv then
    Except.error (Failure.runtimeError "Validation layers requested, but not available!")
  else if !checkExtensionsSupport drv (getRequiredExtensions drv enableValidationLayers) then
    Except.error (Failure.runtimeError "Not all the required extensions are supported!")
  else if !drv.createInstanceOk then
    Except.error (Failure.runtimeError "Failed to create the instance!")
  else Except.ok (app.record (Event.create Resource.vkInstance))

/-- `HelloTriangleApp::createDebugUtilsMessengerEXT`: whether it returns `VK_SUCCESS`. -/
def createDebugUtilsMessengerEXT (drv : Driver) : Bool :=
  if drv.instanceProcAddr "vkCreateDebugUtilsMessengerEXT" then drv.createDebugMessengerOk
  else false

/-- `HelloTriangleApp::setupDebugMessenger`. -/
def setupDebugMessenger (drv : Driver) (enableValidationLayers : Bool) (app : App) :
    Except Failure App :=
  if !enableValidationLayers then Except.ok app
  else if !createDebugUtilsMessengerEXT drv then
    Except.error (Failure.runtimeError "Failed to set up the debug messenger!")
  else Except.ok (app.record (Event.create Resource.debugMessenger))

/-- `HelloTriangleApp::createSurface`. -/
def createSurface (drv : Driver) (app : App) : Except Failure App :=
  match drv.windowSurface with
  | none => Except.error (Failure.runtimeError "Failed to create the window surface!")
  | some surface =>
    Except.ok ⟨surface, app.physicalDevice, app.swapChainImages, app.swapChainImageFormat,
      app.swapChainExtent, app.swapChainImageViews,
      app.log ++ [Event.create Resource.surface]⟩

/-- The stage `pickPhysicalDevice` of `initVulkan`, storing the selected handle. -/
def pickPhysicalDeviceStage (drv : Driver) (app : App) : Except Failure App :=
  match pickPhysicalDevice drv app.surface with
  | Except.error e => Except.error e
  | Except.ok dev =>
    Except.ok ⟨app.surface, some dev, app.swapChainImages, app.swapChainImageFormat,
      app.swapChainExtent, app.swapChainImageViews, app.log⟩

/-- The stage `createLogicalDevice` of `initVulkan`.  A null `physicalDevice` cannot
reach it, `pickPhysicalDevice` having thrown. -/
def createLogicalDeviceStage (drv : Driver) (app : App) : Except Failure App :=
  match app.physicalDevice with
  | none => Except.error Failure.undefinedBehaviour
  | some dev =>
    match createLogicalDevice drv app.surface dev with
    | Except.error e => Except.error e
    | Except.ok _ => Except.ok (app.record (Event.create Resource.device))

/-- `HelloTriangleApp::createSwapChain`. -/
def createSwapChain (drv : Driver) (app : App) : Except Failure App :=
  match app.physicalDevice with
  | none => Except.error Failure.undefinedBehaviour
  | some dev =>
    match swapChainCreateInfo drv app.surface dev with
    | Except.error e => Except.error e
    | Except.ok createInfo =>
      if !drv.createSwapchainOk then
        Except.error (Failure.runtimeError "Failed to create the swap chain!")
      else
        Except.ok ⟨app.surface, app.physicalDevice, drv.swapchainImages,
          createInfo.imageFormat, createInfo.imageExtent, app.swapChainImageViews,
          app.log ++ [Event.create Resource.swapChain]⟩

/-- The `for` loop of `createImageViews` from position `i` on, over the images not
yet visited. -/
def createImageViewsLoop (drv : Driver) : List Nat → Nat → App → Except Failure App
  | [], _, app => Except.ok app
  | _ :: rest, i, app =>
    if !drv.createImageViewOk i then
      Except.error (Failure.runtimeError "Failed to create the image view!")
    else
      createImageViewsLoop drv rest (i + 1)
        ⟨app.surface, app.physicalDevice, app.swapChainImages, app.swapChainImageFormat,
          app.swapChainExtent, app.swapChainImageViews ++ [Resource.imageView i],
          app.log ++ [Event.create (Resource.imageView i)]⟩

/-- `HelloTriangleApp::createImageViews`. -/
def createImageViews (drv : Driver) (app : App) : Except Failure App :=
  createImageViewsLoop drv app.swapChainImages 0
    ⟨app.surface, app.physicalDevice, app.swapChainImages, app.swapChainImageFormat,
      app.swapChainExtent, [], app.log⟩

/-- `HelloTriangleApp::createGraphicsPipeline`, an empty function. -/
def createGraphicsPipeline (app : App) : App := app

/-- `HelloTriangleApp::initVulkan`. -/
def initVulkan (drv : Driver) (enableValidationLayers : Bool) (app : App) :
    Except Failure App := do
  let app1 ← createInstance drv enableValidationLayers app
  let app2 ← setupDebugMessenger drv enableValidationLayers app1
  let app3 ← createSurface drv app2
  let app4 ← pickPhysicalDeviceStage drv app3
  let app5 ← createLogicalDeviceStage drv app4
  let app6 ← createSwapChain drv app5
  let app7 ← createImageViews drv app6
  pure (createGraphicsPipeline app7)

/-- `HelloTriangleApp::mainLoop`: each round polls the events and changes nothing
in the application. -/
def mainLoop : Nat → App → App
  | 0, app => app
  | polls + 1, app => mainLoop polls app

/-- `HelloTriangleApp::destroyDebugUtilsMessengerEXT`. -/
def destroyDebugUtilsMessengerEXT (drv : Driver) (app : App) : App :=
  if drv.instanceProcAddr "vkDestroyDebugUtilsMessengerEXT" then
    app.record (Event.destroy Resource.debugMessenger)
  else app

/-- `HelloTriangleApp::cleanup`. -/
def cleanup (drv : Driver) (enableValidationLayers : Bool) (app : App) : App :=
  let app1 := if enableValidationLayers then destroyDebugUtilsMessengerEXT drv app else app
  let app2 := app1.swapChainImageViews.foldl
    (fun a imageView => a.record (Event.destroy imageView)) app1
  let app3 := app2.record (Event.destroy Resource.swapChain)
  let app4 := app3.record (Event.destroy Resource.device)
  let app5 := app4.record (Event.destroy Resource.surface)
  let app6 := app5.record (Event.destroy Resource.vkInstance)
  app6.record (Event.destroy Resource.window)

/-- The application object before `run`: no handle is set and nothing is logged. -/
def App.initial : App := ⟨0, none, [], 0, ⟨0, 0⟩, [], []⟩

/-- `HelloTriangleApp::run`: the log of a run that returns, or the failure that
ends it. -/
def run (drv : Driver) (enableValidationLayers : Bool) : Except Failure (List Event) := do
  let app1 := initWindow App.initial
  let app2 ← initVulkan drv enableValidationLayers app1
  let app3 := mainLoop drv.pollsBeforeClose app2
  pure (cleanup drv enableValidationLayers app3).log

/-- The resources of the creation events of a log, in order. -/
def createdResources : List Event → List Resource
  | [] => []
  | Event.create r :: rest => r :: createdResources rest
  | Event.destroy _ :: rest => createdResources rest

/-- The resources of the destruction events of a log, in order. -/
def destroyedResources : List Event → List Resource
  | [] => []
  | Event.create _ :: rest => destroyedResources rest
  | Event.destroy r :: rest => r :: destroyedResources rest

/-- The image views of a chain of `n` images, in creation order. -/
def imageViews (n : Nat) : List Resource := (List.range n).map Resource.imageView

/-! ## The suitability predicates in the words of the specification -/

/-- Some queue family of the device has the graphics flag. -/
def graphicsCapable (drv : Driver) (dev : VkPhysicalDevice) : Bool :=
  (drv.queueFamilyProperties dev).any
    (fun queueFamily => queueFamily.queueFlags &&& VK_QUEUE_GRAPHICS_BIT != 0)

/-- Some queue family of the device supports presentation on the surface. -/
def presentCapable (drv : Driver) (surface : VkSurfaceKHR) (dev : VkPhysicalDevice) : Bool :=
  (List.range (drv.queueFamilyProperties dev).length).any
    (fun index => drv.surfaceSupport dev index surface)

/-- Every required device extension is among the extensions the device reports. -/
def supportsRequiredExtensions (drv : Driver) (dev : VkPhysicalDevice) : Bool :=
  deviceExtensions.all (fun name => (drv.deviceExtensionProperties dev).contains name)

/-- The driver reports at least one surface format for the device and surface. -/
def reportsSurfaceFormat (drv : Driver) (surface : VkSurfaceKHR) (dev : VkPhysicalDevice) :
    Bool :=
  !(drv.surfaceFormats dev surface).isEmpty

/-- The driver reports at least one presentation mode for the device and surface. -/
def reportsPresentMode (drv : Driver) (surface : VkSurfaceKHR) (dev : VkPhysicalDevice) :
    Bool :=
  !(drv.surfacePresentModes dev surface).isEmpty

/-- The present-mode query of `querySwapChainSupport` stays within its vector: the
driver reports no surface format, so that the query is skipped, or no more
presentation modes than surface formats. -/
def presentModesFit (drv : Driver) (surface : VkSurfaceKHR) (dev : VkPhysicalDevice) : Bool :=
  (drv.surfaceFormats dev surface).isEmpty
    || decide ((drv.surfacePresentModes dev surface).length
        ≤ (drv.surfaceFormats dev surface).length)

/-- The four suitability predicates of the specification: queue completeness
(graphics and presentation), extension support, a surface format, a present mode. -/
def satisfiesAllPredicates (drv : Driver) (surface : VkSurfaceKHR) (dev : VkPhysicalDevice) :
    Bool :=
  graphicsCapable drv dev && presentCapable drv surface dev
    && supportsRequiredExtensions drv dev
    && reportsSurfaceFormat drv surface dev && reportsPresentMode drv surface dev

/-- The device is a discrete GPU. -/
def isDiscrete (drv : Driver) (dev : VkPhysicalDevice) : Bool :=
  drv.deviceType dev == VK_PHYSICAL_DEVICE_TYPE_DISCRETE_GPU

/-- The "no preference" value of `currentExtent`: both fields are the largest
`uint32_t`. -/
def noPreferenceExtent : VkExtent2D := ⟨UINT32_MAX, UINT32_MAX⟩

/-- The value `v` clamped into the interval `[lo, hi]`, in the words of the
specification: no less than `lo`, no more than `hi`, and `v` itself when it lies
between them. -/
def clampedInto (v : Int) (lo hi : Nat) : Nat := (max (lo : Int) (min v (hi : Int))).toNat

/-- The preferred (format, colour space) pair. -/
def preferredSurfaceFormat : VkSurfaceFormatKHR :=
  ⟨VK_FORMAT_B8G8R8A8_SRGB, VK_COLOR_SPACE_SRGB_NONLINEAR_KHR⟩

/-! ## Example drivers -/

/-- A capability snapshot without a fixed extent. -/
def exampleCapabilities : VkSurfaceCapabilitiesKHR :=
  ⟨2, 0, ⟨UINT32_MAX, UINT32_MAX⟩, ⟨64, 64⟩, ⟨4096, 4096⟩, 1⟩

/-- A machine with three GPUs, handles 11, 12 and 13, on which every call succeeds.
Device 11 is integrated, 12 and 13 are discrete; 13 lacks the swap-chain extension.
Each has a graphics family at position 0 and presentation support at position 1. -/
def exampleDriver : Driver where
  instanceLayers := ["VK_LAYER_KHRONOS_validation"]
  instanceExtensions := ["VK_KHR_surface", "VK_KHR_xcb_surface", "VK_EXT_debug_utils"]
  glfwRequiredInstanceExtensions := ["VK_KHR_surface", "VK_KHR_xcb_surface"]
  createInstanceOk := true
  instanceProcAddr := fun _ => true
  createDebugMessengerOk := true
  windowSurface := some 7
  physicalDevices := [11, 12, 13]
  deviceType := fun dev =>
    if dev = 11 then VK_PHYSICAL_DEVICE_TYPE_INTEGRATED_GPU
    else VK_PHYSICAL_DEVICE_TYPE_DISCRETE_GPU
  queueFamilyProperties := fun _ => [⟨1⟩, ⟨2⟩]
  surfaceSupport := fun _ index _ => index == 1
  deviceExtensionProperties := fun dev =>
    if dev = 13 then ["VK_KHR_maintenance1"] else ["VK_KHR_maintenance1", "VK_KHR_swapchain"]
  surfaceCapabilities := fun _ _ => exampleCapabilities
  surfaceFormats := fun _ _ => [⟨44, 0⟩, ⟨50, 0⟩]
  surfacePresentModes := fun _ _ => [2, 1]
  createDeviceOk := true
  framebufferSize := (10, 5000)
  createSwapchainOk := true
  swapchainImages := [101, 102, 103]
  createImageViewOk := fun _ => true
  pollsBeforeClose := 4

/-- The driver `drv` with another list of enumerated devices. -/
def Driver.withDevices (drv : Driver) (devices : List VkPhysicalDevice) : Driver where
  instanceLayers := drv.instanceLayers
  instanceExtensions := drv.instanceExtensions
  glfwRequiredInstanceExtensions := drv.glfwRequiredInstanceExtensions
  createInstanceOk := drv.createInstanceOk
  instanceProcAddr := drv.instanceProcAddr
  createDebugMessengerOk := drv.createDebugMessengerOk
  windowSurface := drv.windowSurface
  physicalDevices := devices
  deviceType := drv.deviceType
  queueFamilyProperties := drv.queueFamilyProperties
  surfaceSupport := drv.surfaceSupport
  deviceExtensionProperties := drv.deviceExtensionProperties
  surfaceCapabilities := drv.surfaceCapabilities
  surfaceFormats := drv.surfaceFormats
  surfacePresentModes := drv.surfacePresentModes
  createDeviceOk := drv.createDeviceOk
  framebufferSize := drv.framebufferSize
  createSwapchainOk := drv.createSwapchainOk
  swapchainImages := drv.swapchainImages
  createImageViewOk := drv.createImageViewOk
  pollsBeforeClose := drv.pollsBeforeClose

/-- The example machine with a driver that reports no presentation mode. -/
def exampleDriverNoPresentModes : Driver :=
  { exampleDriver with surfacePresentModes := fun _ _ => [] }

/-- The example machine with every queue family able to present, so that family 0
serves both roles. -/
def exampleDriverSharedFamily : Driver :=
  { exampleDriver with surfaceSupport := fun _ _ _ => true }

/-- The example machine with a driver that reports one surface format and three
presentation modes. -/
def exampleDriverManyPresentModes : Driver :=
  { exampleDriver with
    surfaceFormats := fun _ _ => [⟨50, 0⟩]
    surfacePresentModes := fun _ _ => [2, 1, 0] }

/-- The example machine with a driver that reports three surface formats, and the
two presentation modes of the example machine. -/
def exampleDriverThreeFormats : Driver :=
  { exampleDriver with surfaceFormats := fun _ _ => [⟨44, 0⟩, ⟨50, 0⟩, ⟨37, 0⟩] }

/-- The example machine with a driver that reports no surface format. -/
def exampleDriverNoFormats : Driver :=
  { exampleDriver with surfaceFormats := fun _ _ => [] }

/-- The example machine with devices whose family 0 is compute-only and whose
family 1 is the graphics family. -/
def exampleDriverComputeFirst : Driver :=
  { exampleDriver with queueFamilyProperties := fun _ => [⟨2⟩, ⟨1⟩] }

/-- The example machine with the extension names reported in another order and
the swap-chain extension twice. -/
def exampleDriverRepeatedExtensions : Driver :=
  { exampleDriver with deviceExtensionProperties := fun _ =>
      ["VK_KHR_swapchain", "VK_KHR_maintenance1", "VK_KHR_swapchain"] }

/-! ## The scan of `findQueueFamilies` without its `break` -/

/-- The indices after the rounds of the loop of `findQueueFamilies` over the given
families, none skipped: the state the loop is in once it has visited them all. -/
def findQueueFamiliesScan (drv : Driver) (surface : VkSurfaceKHR) (dev : VkPhysicalDevice) :
    List VkQueueFamilyProperties → Nat → QueueFamilyIndices → QueueFamilyIndices
  | [], _, indices => indices
  | queueFamily :: rest, index, indices =>
    findQueueFamiliesScan drv surface dev rest (index + 1)
      (findQueueFamiliesStep drv surface dev queueFamily index indices)

/-- The indices once the first `n` families of the device have been visited. -/
def indicesAfter (drv : Driver) (surface : VkSurfaceKHR) (dev : VkPhysicalDevice) (n : Nat) :
    QueueFamilyIndices :=
  findQueueFamiliesScan drv surface dev ((drv.queueFamilyProperties dev).take n) 0
    ⟨none, none⟩

/-- The family at position `i` of the device has the graphics flag. -/
def familyHasGraphics (drv : Driver) (dev : VkPhysicalDevice) (i : Nat) : Bool :=
  match (drv.queueFamilyProperties dev)[i]? with
  | some queueFamily => queueFamily.queueFlags &&& VK_QUEUE_GRAPHICS_BIT != 0
  | none => false

/-! ## The earlier stage of the program: `utility.cpp` and `Code/main.cpp` -/

namespace Utility

/-- The `QueueFamilyIndices` of `utility.h`: the graphics family alone. -/
structure QueueFamilyIndices where
  graphicsFamily : Option Nat
deriving DecidableEq

/-- `QueueFamilyIndices::isComplete` of `utility.h`. -/
def QueueFamilyIndices.isComplete (q : QueueFamilyIndices) : Bool :=
  q.graphicsFamily.isSome

/-- The range-for loop of `findQueueFamilies` in `utility.cpp`.  The `int` counter
`index` is incremented by `index++` inside the `if`, and nowhere else. -/
def findQueueFamiliesLoop :
    List VkQueueFamilyProperties → Int → QueueFamilyIndices → QueueFamilyIndices
  | [], _, indices => indices
  | queueFamily :: rest, index, indices =>
    if queueFamily.queueFlags &&& VK_QUEUE_GRAPHICS_BIT ≠ 0 then
      let indices1 : QueueFamilyIndices := ⟨some (castUInt32 index)⟩
      if indices1.isComplete then indices1
      else findQueueFamiliesLoop rest (index + 1) indices1
    else if indices.isComplete then indices
    else findQueueFamiliesLoop rest index indices

/-- The free function `findQueueFamilies` of `utility.cpp`. -/
def findQueueFamilies (drv : Driver) (device : VkPhysicalDevice) : QueueFamilyIndices :=
  findQueueFamiliesLoop (drv.queueFamilyProperties device) 0 ⟨none⟩

end Utility

namespace Main

/-- What `createLogicalDevice` of `Code/main.cpp` asks of the driver: the single
queue-creation request of `vkCreateDevice` and the family of `vkGetDeviceQueue`. -/
structure LogicalDeviceRequest where
  queueCreateInfo : VkDeviceQueueCreateInfo
  graphicsQueueFamily : Nat
deriving DecidableEq

/-- `HelloTriangleApp::createLogicalDevice` of `Code/main.cpp`. -/
def createLogicalDevice (drv : Driver) (physicalDevice : VkPhysicalDevice) :
    Except Failure LogicalDeviceRequest :=
  let indices := Utility.findQueueFamilies drv physicalDevice
  let queuePriority : Rat := 1
  match optionalValue indices.graphicsFamily with
  | Except.error e => Except.error e
  | Except.ok graphics =>
    if drv.createDeviceOk then Except.ok ⟨⟨graphics, 1, queuePriority⟩, graphics⟩
    else Except.error (Failure.runtimeError "Failed to create the logical device!")

end Main

/-! ## Lemmas on the queue-family scan -/

theorem findQueueFamiliesStep_graphics (drv : Driver) (surface : VkSurfaceKHR)
    (dev : VkPhysicalDevice) (q : VkQueueFamilyProperties) (index : Nat)
    (ind : QueueFamilyIndices) :
    (findQueueFamiliesStep drv surface dev q index ind).graphicsFamily.isSome =
      (ind.graphicsFamily.isSome || (q.queueFlags &&& VK_QUEUE_GRAPHICS_BIT != 0)) := by
  unfold findQueueFamiliesStep
  by_cases hg : q.queueFlags &&& VK_QUEUE_GRAPHICS_BIT = 0 <;>
    by_cases hp : drv.surfaceSupport dev index surface = true <;> simp [hg, hp]

theorem findQueueFamiliesStep_present (drv : Driver) (surface : VkSurfaceKHR)
    (dev : VkPhysicalDevice) (q : VkQueueFamilyProperties) (index : Nat)
    (ind : QueueFamilyIndices) :
    (findQueueFamiliesStep drv surface dev q index ind).presentFamily.isSome =
      (ind.presentFamily.isSome || drv.surfaceSupport dev index surface) := by
  unfold findQueueFamiliesStep
  by_cases hg : q.queueFlags &&& VK_QUEUE_GRAPHICS_BIT = 0 <;>
    by_cases hp : drv.surfaceSupport dev index surface = true <;> simp [hg, hp]

theorem range_succ_any (f : Nat → Bool) (index n : Nat) :
    (List.range (n + 1)).any (fun i => f (index + i)) =
      (f index || (List.range n).any (fun i => f (index + 1 + i))) := by
  rw [List.range_succ_eq_map, List.any_cons, List.any_map]
  congr 1
  congr 1
  funext i
  simp [Function.comp, Nat.add_assoc, Nat.add_comm 1 i]

theorem findQueueFamiliesLoop_isComplete (drv : Driver) (surface : VkSurfaceKHR)
    (dev : VkPhysicalDevice) (qs : List VkQueueFamilyProperties) :
    ∀ (index : Nat) (ind : QueueFamilyIndices),
      (findQueueFamiliesLoop drv surface dev qs index ind).isComplete =
        ((ind.graphicsFamily.isSome
            || qs.any (fun q => q.queueFlags &&& VK_QUEUE_GRAPHICS_BIT != 0))
          && (ind.presentFamily.isSome
            || (List.range qs.length).any
                (fun i => drv.surfaceSupport dev (index + i) surface))) := by
  induction qs with
  | nil => intro index ind; simp [findQueueFamiliesLoop, QueueFamilyIndices.isComplete]
  | cons q rest ih =>
    intro index ind
    have hg := findQueueFamiliesStep_graphics drv surface dev q index ind
    have hp := findQueueFamiliesStep_present drv surface dev q index ind
    have hr := range_succ_any (fun j => drv.surfaceSupport dev j surface) index rest.length
    simp only [findQueueFamiliesLoop, List.length_cons, List.any_cons]
    rw [hr]
    by_cases hc : (findQueueFamiliesStep drv surface dev q index ind).isComplete = true
    · rw [if_pos hc, hc]
      simp only [QueueFamilyIndices.isComplete, Bool.and_eq_true] at hc
      rw [hg] at hc
      rw [hp] at hc
      obtain ⟨h1, h2⟩ := hc
      simp only [Bool.or_eq_true] at h1 h2
      rcases h1 with h1 | h1 <;> rcases h2 with h2 | h2 <;> simp [h1, h2]
    · rw [if_neg hc, ih (index + 1) _, hg, hp]
      simp only [Bool.or_assoc]

/-- The scan of `findQueueFamilies` ends complete exactly when the device has a
graphics family and a family that can present. -/
theorem findQueueFamilies_isComplete (drv : Driver) (surface : VkSurfaceKHR)
    (dev : VkPhysicalDevice) :
    (findQueueFamilies drv surface dev).isComplete =
      (graphicsCapable drv dev && presentCapable drv surface dev) := by
  unfold findQueueFamilies graphicsCapable presentCapable
  rw [findQueueFamiliesLoop_isComplete]
  simp

/-! ## Lemmas on the extension check -/

theorem foldl_stdSetErase (avail : List String) :
    ∀ s : List String,
      avail.foldl stdSetErase s = s.filter (fun x => !avail.contains x) := by
  induction avail with
  | nil => intro s; simp
  | cons a rest ih =>
    intro s
    rw [List.foldl_cons, ih, stdSetErase, List.filter_filter]
    congr 1
    funext x
    by_cases hx : x = a <;> simp [hx, List.contains_cons, Bool.and_comm]

theorem filter_isEmpty (p : String → Bool) (s : List String) :
    (s.filter p).isEmpty = s.all (fun x => !p x) := by
  induction s with
  | nil => simp
  | cons a rest ih =>
    by_cases ha : p a = true
    · simp [List.filter_cons, ha]
    · simp only [Bool.not_eq_true] at ha
      simp [List.filter_cons, ha, ih]

/-- The erase loop of `checkDeviceExtensionsSupport` leaves the set empty exactly
when every required extension is reported. -/
theorem checkDeviceExtensionsSupport_eq (drv : Driver) (dev : VkPhysicalDevice) :
    checkDeviceExtensionsSupport drv dev = supportsRequiredExtensions drv dev := by
  have hset : stdSetOfList deviceExtensions = deviceExtensions := by decide
  unfold checkDeviceExtensionsSupport supportsRequiredExtensions
  simp only [hset]
  rw [foldl_stdSetErase, filter_isEmpty]
  simp

/-! ## Lemmas on the swap-chain query and on suitability -/

theorem resizedAndFilled_length (size : Nat) (written : List Nat)
    (h : written.length ≤ size) : (resizedAndFilled size written).length = size := by
  unfold resizedAndFilled
  simp only [List.length_append, List.length_replicate]
  omega

/-- What `querySwapChainSupport` returns: undefined behaviour when the present-mode
query does not fit its vector, and otherwise the capabilities, the formats and a
present-mode vector of the size of the format list. -/
theorem querySwapChainSupport_eq (drv : Driver) (surface : VkSurfaceKHR)
    (dev : VkPhysicalDevice) :
    querySwapChainSupport drv surface dev =
      if presentModesFit drv surface dev = true then
        Except.ok ⟨drv.surfaceCapabilities dev surface, drv.surfaceFormats dev surface,
          if (drv.surfaceFormats dev surface).isEmpty = true then []
          else resizedAndFilled (drv.surfaceFormats dev surface).length
            (drv.surfacePresentModes dev surface)⟩
      else Except.error Failure.undefinedBehaviour := by
  unfold querySwapChainSupport presentModesFit
  cases hf : drv.surfaceFormats dev surface with
  | nil => simp
  | cons f rest =>
    by_cases hlen : (drv.surfacePresentModes dev surface).length > (f :: rest).length
    · have hnot : ¬ (drv.surfacePresentModes dev surface).length ≤ rest.length + 1 := by
        simp only [List.length_cons] at hlen
        omega
      simp [hlen, hnot]
    · have hle : (drv.surfacePresentModes dev surface).length ≤ rest.length + 1 := by
        simp only [List.length_cons] at hlen
        omega
      simp [hlen, hle]

/-- The present-mode vector of a returned snapshot has as many entries as the driver
reports surface formats. -/
theorem querySwapChainSupport_presentModes_length (drv : Driver) (surface : VkSurfaceKHR)
    (dev : VkPhysicalDevice) (support : SwapChainSupportDetails)
    (h : querySwapChainSupport drv surface dev = Except.ok support) :
    support.presentModes.length = (drv.surfaceFormats dev surface).length
      ∧ support.formats = drv.surfaceFormats dev surface := by
  rw [querySwapChainSupport_eq] at h
  by_cases hfit : presentModesFit drv surface dev = true
  · rw [if_pos hfit] at h
    cases h
    refine ⟨?_, rfl⟩
    cases hf : drv.surfaceFormats dev surface with
    | nil => simp
    | cons f rest =>
      have hle : (drv.surfacePresentModes dev surface).length ≤ (f :: rest).length := by
        simpa [presentModesFit, hf] using hfit
      simp only [List.isEmpty_cons, Bool.false_eq_true, if_false]
      exact resizedAndFilled_length _ _ hle
  · rw [if_neg hfit] at h
    cases h

/-- What `isDeviceSuitable` tests, in terms of the driver's answers. -/
theorem isDeviceSuitable_eq (drv : Driver) (surface : VkSurfaceKHR) (dev : VkPhysicalDevice) :
    isDeviceSuitable drv surface dev =
      if presentModesFit drv surface dev = true then
        Except.ok (isDiscrete drv dev && graphicsCapable drv dev
          && presentCapable drv surface dev && supportsRequiredExtensions drv dev
          && reportsSurfaceFormat drv surface dev)
      else Except.error Failure.undefinedBehaviour := by
  unfold isDeviceSuitable
  cases hq : querySwapChainSupport drv surface dev with
  | error e =>
    rw [querySwapChainSupport_eq] at hq
    by_cases hfit : presentModesFit drv surface dev = true
    · rw [if_pos hfit] at hq; cases hq
    · rw [if_neg hfit] at hq ⊢
      cases hq
      rfl
  | ok support =>
    have hlen := querySwapChainSupport_presentModes_length drv surface dev support hq
    rw [querySwapChainSupport_eq] at hq
    by_cases hfit : presentModesFit drv surface dev = true
    · rw [if_pos hfit]
      have hempty : support.presentModes.isEmpty = support.formats.isEmpty := by
        rw [hlen.2]
        cases hm : support.presentModes with
        | nil =>
          rw [hm] at hlen
          cases hf : drv.surfaceFormats dev surface with
          | nil => rfl
          | cons f rest => rw [hf] at hlen; simp at hlen
        | cons m ms =>
          rw [hm] at hlen
          cases hf : drv.surfaceFormats dev surface with
          | nil => rw [hf] at hlen; simp at hlen
          | cons f rest => rfl
      simp only [hempty, hlen.2, findQueueFamilies_isComplete,
        checkDeviceExtensionsSupport_eq, isDiscrete, reportsSurfaceFormat]
      congr 1
      cases drv.deviceType dev == VK_PHYSICAL_DEVICE_TYPE_DISCRETE_GPU <;>
        cases graphicsCapable drv dev <;> cases presentCapable drv surface dev <;>
        cases supportsRequiredExtensions drv dev <;>
        cases (drv.surfaceFormats dev surface).isEmpty <;> rfl
    · rw [if_neg hfit] at hq
      cases hq

theorem isDeviceSuitable_of_fit (drv : Driver) (surface : VkSurfaceKHR)
    (dev : VkPhysicalDevice) (hfit : presentModesFit drv surface dev = true) :
    isDeviceSuitable drv surface dev =
      Except.ok (isDiscrete drv dev && graphicsCapable drv dev
        && presentCapable drv surface dev && supportsRequiredExtensions drv dev
        && reportsSurfaceFormat drv surface dev) := by
  rw [isDeviceSuitable_eq, if_pos hfit]

theorem isDeviceSuitable_ok (drv : Driver) (surface : VkSurfaceKHR)
    (dev : VkPhysicalDevice) (b : Bool) (h : isDeviceSuitable drv surface dev = Except.ok b) :
    presentModesFit drv surface dev = true
      ∧ b = (isDiscrete drv dev && graphicsCapable drv dev
        && presentCapable drv surface dev && supportsRequiredExtensions drv dev
        && reportsSurfaceFormat drv surface dev) := by
  rw [isDeviceSuitable_eq] at h
  by_cases hfit : presentModesFit drv surface dev = true
  · rw [if_pos hfit] at h
    cases h
    exact ⟨hfit, rfl⟩
  · rw [if_neg hfit] at h
    cases h

/-! ## Lemmas on the selection loop -/

theorem pickPhysicalDeviceLoop_cons (drv : Driver) (surface : VkSurfaceKHR)
    (d : VkPhysicalDevice) (rest : List VkPhysicalDevice) :
    pickPhysicalDeviceLoop drv surface (d :: rest) =
      match isDeviceSuitable drv surface d with
      | Except.error e => Except.error e
      | Except.ok true => Except.ok (some d)
      | Except.ok false => pickPhysicalDeviceLoop drv surface rest := by
  rfl

theorem pickPhysicalDeviceLoop_some (drv : Driver) (surface : VkSurfaceKHR)
    (devices : List VkPhysicalDevice) (dev : VkPhysicalDevice)
    (h : pickPhysicalDeviceLoop drv surface devices = Except.ok (some dev)) :
    dev ∈ devices ∧ isDeviceSuitable drv surface dev = Except.ok true := by
  induction devices with
  | nil => simp [pickPhysicalDeviceLoop] at h
  | cons d rest ih =>
    rw [pickPhysicalDeviceLoop_cons] at h
    cases hd : isDeviceSuitable drv surface d with
    | error e => rw [hd] at h; cases h
    | ok b =>
      cases b with
      | true =>
        rw [hd] at h
        simp only [Except.ok.injEq, Option.some.injEq] at h
        subst h
        exact ⟨List.mem_cons_self _ _, hd⟩
      | false =>
        rw [hd] at h
        exact ⟨List.mem_cons_of_mem _ (ih h).1, (ih h).2⟩

theorem pickPhysicalDeviceLoop_none (drv : Driver) (surface : VkSurfaceKHR)
    (devices : List VkPhysicalDevice) :
    pickPhysicalDeviceLoop drv surface devices = Except.ok none ↔
      ∀ d ∈ devices, isDeviceSuitable drv surface d = Except.ok false := by
  induction devices with
  | nil => simp [pickPhysicalDeviceLoop]
  | cons d rest ih =>
    rw [pickPhysicalDeviceLoop_cons]
    cases hd : isDeviceSuitable drv surface d with
    | error e => simp [hd]
    | ok b =>
      cases b with
      | true => simp [hd]
      | false => simp [hd, ih]

/-- When no examined device makes the present-mode query leave its vector, the loop
stops at a suitable device that no suitable device precedes; when every suitable
device of the list is `dev`, it yields `dev`. -/
theorem pickPhysicalDeviceLoop_unique (drv : Driver) (surface : VkSurfaceKHR)
    (devices : List VkPhysicalDevice) (dev : VkPhysicalDevice) (hmem : dev ∈ devices)
    (hfit : ∀ d ∈ devices, presentModesFit drv surface d = true)
    (hdev : isDeviceSuitable drv surface dev = Except.ok true)
    (huniq : ∀ d ∈ devices, isDeviceSuitable drv surface d = Except.ok true → d = dev) :
    pickPhysicalDeviceLoop drv surface devices = Except.ok (some dev) := by
  induction devices with
  | nil => cases hmem
  | cons d rest ih =>
    rw [pickPhysicalDeviceLoop_cons]
    have hd := isDeviceSuitable_of_fit drv surface d (hfit d (List.mem_cons_self _ _))
    cases hb : (isDiscrete drv d && graphicsCapable drv d && presentCapable drv surface d
        && supportsRequiredExtensions drv d && reportsSurfaceFormat drv surface d) with
    | true =>
      rw [hb] at hd
      rw [hd, huniq d (List.mem_cons_self _ _) hd]
    | false =>
      rw [hb] at hd
      rw [hd]
      have hne : dev ≠ d := by
        intro heq
        rw [heq, hd] at hdev
        cases hdev
      have hmem2 : dev ∈ rest := by
        rcases List.mem_cons.1 hmem with h | h
        · exact absurd h hne
        · exact h
      exact ih hmem2 (fun x hx => hfit x (List.mem_cons_of_mem _ hx))
        (fun x hx => huniq x (List.mem_cons_of_mem _ hx))

/-- A loop over devices whose present-mode queries all fit ends without undefined
behaviour. -/
theorem pickPhysicalDeviceLoop_defined (drv : Driver) (surface : VkSurfaceKHR)
    (devices : List VkPhysicalDevice)
    (hfit : ∀ d ∈ devices, presentModesFit drv surface d = true) :
    ∃ r, pickPhysicalDeviceLoop drv surface devices = Except.ok r := by
  induction devices with
  | nil => exact ⟨none, rfl⟩
  | cons d rest ih =>
    rw [pickPhysicalDeviceLoop_cons]
    have hd := isDeviceSuitable_of_fit drv surface d (hfit d (List.mem_cons_self _ _))
    cases hb : (isDiscrete drv d && graphicsCapable drv d && presentCapable drv surface d
        && supportsRequiredExtensions drv d && reportsSurfaceFormat drv surface d) with
    | true =>
      rw [hb] at hd
      rw [hd]
      exact ⟨some d, rfl⟩
    | false =>
      rw [hb] at hd
      rw [hd]
      exact ih (fun x hx => hfit x (List.mem_cons_of_mem _ hx))

/-! ## Device selection: claims -/

theorem pickPhysicalDevice_eq (drv : Driver) (surface : VkSurfaceKHR) :
    pickPhysicalDevice drv surface =
      if drv.physicalDevices = [] then Except.error (Failure.runtimeError errNoDevices)
      else
        match pickPhysicalDeviceLoop drv surface drv.physicalDevices with
        | Except.error e => Except.error e
        | Except.ok (some dev) => Except.ok dev
        | Except.ok none => Except.error (Failure.runtimeError errNoSuitableDevice) := by
  unfold pickPhysicalDevice
  simp only [List.length_eq_zero]

theorem errNoDevices_ne : errNoDevices ≠ errNoSuitableDevice := by decide

theorem pickPhysicalDevice_ok (drv : Driver) (surface : VkSurfaceKHR)
    (dev : VkPhysicalDevice) (h : pickPhysicalDevice drv surface = Except.ok dev) :
    dev ∈ drv.physicalDevices ∧ isDeviceSuitable drv surface dev = Except.ok true := by
  rw [pickPhysicalDevice_eq] at h
  by_cases he : drv.physicalDevices = []
  · rw [if_pos he] at h; cases h
  · rw [if_neg he] at h
    cases hl : pickPhysicalDeviceLoop drv surface drv.physicalDevices with
    | error e => rw [hl] at h; cases h
    | ok r =>
      cases r with
      | none => rw [hl] at h; cases h
      | some d =>
        rw [hl] at h
        cases h
        exact pickPhysicalDeviceLoop_some drv surface drv.physicalDevices dev hl

/-- C1, counterexample: on the empty enumeration no candidate satisfies the
predicates, yet the failure is the "no devices" error and not the selection-failure
error. -/
theorem pickPhysicalDevice_empty_enumeration_error :
    (∀ d ∈ (exampleDriver.withDevices []).physicalDevices,
        satisfiesAllPredicates (exampleDriver.withDevices []) 7 d = false)
      ∧ pickPhysicalDevice (exampleDriver.withDevices []) 7
          ≠ Except.error (Failure.runtimeError errNoSuitableDevice)
      ∧ pickPhysicalDevice (exampleDriver.withDevices []) 7
          = Except.error (Failure.runtimeError errNoDevices) := by
  decide

/-- The selection on a machine whose driver reports surface formats and no
presentation mode: device 12 is selected all the same, the present-mode vector of
`querySwapChainSupport` having the size of the format list. -/
theorem pickPhysicalDevice_without_present_modes :
    pickPhysicalDevice exampleDriverNoPresentModes 7 = Except.ok 12
      ∧ reportsPresentMode exampleDriverNoPresentModes 7 12 = false
      ∧ (querySwapChainSupport exampleDriverNoPresentModes 7 12).map
          SwapChainSupportDetails.presentModes = Except.ok [0, 0] := by
  decide

/-- C1, amended: a device selected by `pickPhysicalDevice` is an enumerated device
that is a discrete GPU, graphics-capable, presentation-capable on the surface,
supports every required device extension and has at least one reported surface
format; when the enumeration is non-empty, no candidate has all these properties
and no candidate is reported more presentation modes than surface formats while
having a format, the call fails with "Failed to find a suitable GPU!"; on an empty
enumeration it fails with "Failed to find GPUs with Vulkan support!". -/
theorem pickPhysicalDevice_selected_is_suitable (drv : Driver) (surface : VkSurfaceKHR) :
    (∀ dev, pickPhysicalDevice drv surface = Except.ok dev →
        dev ∈ drv.physicalDevices ∧ isDiscrete drv dev = true
          ∧ graphicsCapable drv dev = true ∧ presentCapable drv surface dev = true
          ∧ supportsRequiredExtensions drv dev = true
          ∧ reportsSurfaceFormat drv surface dev = true)
      ∧ (drv.physicalDevices ≠ [] →
          (∀ d ∈ drv.physicalDevices, presentModesFit drv surface d = true) →
          (∀ d ∈ drv.physicalDevices,
            (isDiscrete drv d && graphicsCapable drv d && presentCapable drv surface d
              && supportsRequiredExtensions drv d && reportsSurfaceFormat drv surface d)
              = false) →
          pickPhysicalDevice drv surface
            = Except.error (Failure.runtimeError errNoSuitableDevice))
      ∧ (drv.physicalDevices = [] →
          pickPhysicalDevice drv surface
            = Except.error (Failure.runtimeError errNoDevices)) := by
  refine ⟨?_, ?_, ?_⟩
  · intro dev h
    have hd := pickPhysicalDevice_ok drv surface dev h
    have hs := (isDeviceSuitable_ok drv surface dev true hd.2).2
    have hs2 := hs.symm
    simp only [Bool.and_eq_true] at hs2
    exact ⟨hd.1, hs2.1.1.1.1, hs2.1.1.1.2, hs2.1.1.2, hs2.1.2, hs2.2⟩
  · intro hne hfit hall
    rw [pickPhysicalDevice_eq, if_neg hne]
    have hnone : pickPhysicalDeviceLoop drv surface drv.physicalDevices = Except.ok none := by
      rw [pickPhysicalDeviceLoop_none]
      intro d hd
      rw [isDeviceSuitable_of_fit drv surface d (hfit d hd), hall d hd]
    rw [hnone]
  · intro he
    rw [pickPhysicalDevice_eq, if_pos he]

/-- C1, witness: on the example machine device 12 is selected and has the stated
properties; with the unsuitable devices 11 and 13 alone the selection fails. -/
theorem pickPhysicalDevice_selected_is_suitable_witness :
    (pickPhysicalDevice exampleDriver 7 = Except.ok 12
      ∧ 12 ∈ exampleDriver.physicalDevices ∧ isDiscrete exampleDriver 12 = true
      ∧ graphicsCapable exampleDriver 12 = true ∧ presentCapable exampleDriver 7 12 = true
      ∧ supportsRequiredExtensions exampleDriver 12 = true
      ∧ reportsSurfaceFormat exampleDriver 7 12 = true)
      ∧ pickPhysicalDevice (exampleDriver.withDevices [11, 13]) 7
          = Except.error (Failure.runtimeError errNoSuitableDevice) :=
  ⟨⟨rfl, (pickPhysicalDevice_selected_is_suitable exampleDriver 7).1 12 rfl⟩,
    (pickPhysicalDevice_selected_is_suitable (exampleDriver.withDevices [11, 13]) 7).2.1
      (by decide) (by decide) (by decide)⟩

/-- C2, counterexample: the only enumerated candidate satisfies all four predicates
but is an integrated GPU, and `pickPhysicalDevice` fails instead of returning it. -/
theorem pickPhysicalDevice_rejects_integrated :
    (exampleDriver.withDevices [11]).physicalDevices ≠ []
      ∧ 11 ∈ (exampleDriver.withDevices [11]).physicalDevices
      ∧ satisfiesAllPredicates (exampleDriver.withDevices [11]) 7 11 = true
      ∧ (∀ d ∈ (exampleDriver.withDevices [11]).physicalDevices,
          satisfiesAllPredicates (exampleDriver.withDevices [11]) 7 d = true → d = 11)
      ∧ pickPhysicalDevice (exampleDriver.withDevices [11]) 7 ≠ Except.ok 11
      ∧ pickPhysicalDevice (exampleDriver.withDevices [11]) 7
          = Except.error (Failure.runtimeError errNoSuitableDevice) := by
  decide

/-- C2, amended: when exactly one enumerated candidate is a discrete GPU satisfying
all four suitability predicates, no candidate is a discrete GPU that is
queue-complete, supports the required extensions and has surface formats but no
presentation mode, and no candidate is reported more presentation modes than
surface formats while having a format, `pickPhysicalDevice` returns that candidate,
wherever it stands in the list and whatever the other candidates are. -/
theorem pickPhysicalDevice_returns_unique_candidate (drv : Driver) (surface : VkSurfaceKHR)
    (dev : VkPhysicalDevice) (hmem : dev ∈ drv.physicalDevices)
    (hdisc : isDiscrete drv dev = true)
    (hall : satisfiesAllPredicates drv surface dev = true)
    (huniq : ∀ d ∈ drv.physicalDevices, isDiscrete drv d = true →
      satisfiesAllPredicates drv surface d = true → d = dev)
    (hmodes : ∀ d ∈ drv.physicalDevices,
      ¬ (isDiscrete drv d = true ∧ graphicsCapable drv d = true
        ∧ presentCapable drv surface d = true ∧ supportsRequiredExtensions drv d = true
        ∧ reportsSurfaceFormat drv surface d = true
        ∧ reportsPresentMode drv surface d = false))
    (hfit : ∀ d ∈ drv.physicalDevices, presentModesFit drv surface d = true) :
    pickPhysicalDevice drv surface = Except.ok dev := by
  have hne : drv.physicalDevices ≠ [] := List.ne_nil_of_mem hmem
  simp only [satisfiesAllPredicates, Bool.and_eq_true] at hall
  have hsuit : isDeviceSuitable drv surface dev = Except.ok true := by
    rw [isDeviceSuitable_of_fit drv surface dev (hfit dev hmem)]
    congr 1
    simp only [Bool.and_eq_true]
    exact ⟨⟨⟨⟨hdisc, hall.1.1.1.1⟩, hall.1.1.1.2⟩, hall.1.1.2⟩, hall.1.2⟩
  have hloop : pickPhysicalDeviceLoop drv surface drv.physicalDevices
      = Except.ok (some dev) := by
    apply pickPhysicalDeviceLoop_unique drv surface drv.physicalDevices dev hmem hfit hsuit
    intro d hd hs
    have hs2 := (isDeviceSuitable_ok drv surface d true hs).2.symm
    simp only [Bool.and_eq_true] at hs2
    have hpm : reportsPresentMode drv surface d = true := by
      cases hm : reportsPresentMode drv surface d with
      | true => rfl
      | false =>
        exact absurd ⟨hs2.1.1.1.1, hs2.1.1.1.2, hs2.1.1.2, hs2.1.2, hs2.2, hm⟩ (hmodes d hd)
    apply huniq d hd hs2.1.1.1.1
    simp only [satisfiesAllPredicates, Bool.and_eq_true]
    exact ⟨⟨⟨⟨hs2.1.1.1.2, hs2.1.1.2⟩, hs2.1.2⟩, hs2.2⟩, hpm⟩
  rw [pickPhysicalDevice_eq, if_neg hne, hloop]

/-- C2, witness: among an integrated GPU, a discrete suitable GPU and a discrete GPU
without the swap-chain extension, the middle one is returned. -/
theorem pickPhysicalDevice_returns_unique_candidate_witness :
    pickPhysicalDevice exampleDriver 7 = Except.ok 12 :=
  pickPhysicalDevice_returns_unique_candidate exampleDriver 7 12 (by decide) (by decide)
    (by decide) (by decide) (by decide) (by decide)

/-- On a machine where no candidate makes the present-mode query leave its vector,
`pickPhysicalDevice` fails with "Failed to find GPUs with Vulkan support!" exactly
when no device is enumerated, fails with "Failed to find a suitable GPU!" exactly
when the enumeration is non-empty and no enumerated device passes
`isDeviceSuitable`, and in every other case returns one enumerated device, which
passes `isDeviceSuitable`. -/
theorem pickPhysicalDevice_outcomes_of_fit (drv : Driver) (surface : VkSurfaceKHR)
    (hfit : ∀ d ∈ drv.physicalDevices, presentModesFit drv surface d = true) :
    (pickPhysicalDevice drv surface = Except.error (Failure.runtimeError errNoDevices) ↔
        drv.physicalDevices = [])
      ∧ (pickPhysicalDevice drv surface
            = Except.error (Failure.runtimeError errNoSuitableDevice) ↔
          (drv.physicalDevices ≠ []
            ∧ ∀ d ∈ drv.physicalDevices, isDeviceSuitable drv surface d = Except.ok false))
      ∧ (¬ (drv.physicalDevices = [])
          ∧ ¬ (∀ d ∈ drv.physicalDevices,
              isDeviceSuitable drv surface d = Except.ok false) →
          ∃ dev, pickPhysicalDevice drv surface = Except.ok dev
            ∧ dev ∈ drv.physicalDevices
            ∧ isDeviceSuitable drv surface dev = Except.ok true) := by
  rw [pickPhysicalDevice_eq]
  by_cases he : drv.physicalDevices = []
  · rw [if_pos he]
    refine ⟨⟨fun _ => he, fun _ => rfl⟩, ⟨fun h => ?_, fun h => absurd he h.1⟩,
      fun h => absurd he h.1⟩
    exact absurd (Failure.runtimeError.inj (Except.error.inj h)) errNoDevices_ne
  · rw [if_neg he]
    obtain ⟨r, hl⟩ := pickPhysicalDeviceLoop_defined drv surface drv.physicalDevices hfit
    rw [hl]
    cases r with
    | none =>
      have hall := (pickPhysicalDeviceLoop_none drv surface drv.physicalDevices).1 hl
      refine ⟨⟨fun h => ?_, fun h => absurd h he⟩, ⟨fun _ => ⟨he, hall⟩, fun _ => rfl⟩,
        fun h => absurd hall h.2⟩
      exact absurd (Failure.runtimeError.inj (Except.error.inj h)).symm errNoDevices_ne
    | some dev =>
      have hd := pickPhysicalDeviceLoop_some drv surface drv.physicalDevices dev hl
      refine ⟨⟨fun h => ?_, fun h => absurd h he⟩, ⟨fun h => ?_, fun h => ?_⟩,
        fun _ => ⟨dev, rfl, hd.1, hd.2⟩⟩
      · cases h
      · cases h
      · have hf := h.2 dev hd.1
        rw [hd.2] at hf
        cases hf

/-- C3, the code at the failing input: on a machine whose driver reports one
surface format and three presentation modes, `pickPhysicalDevice` ends neither in
one of its two errors nor with a handle: examining the first device writes past the
end of the present-mode vector, which is undefined behaviour. -/
theorem pickPhysicalDevice_present_mode_overflow :
    exampleDriverManyPresentModes.physicalDevices = [11, 12, 13]
      ∧ (exampleDriverManyPresentModes.surfaceFormats 11 7).length = 1
      ∧ (exampleDriverManyPresentModes.surfacePresentModes 11 7).length = 3
      ∧ querySwapChainSupport exampleDriverManyPresentModes 7 11
          = Except.error Failure.undefinedBehaviour
      ∧ isDeviceSuitable exampleDriverManyPresentModes 7 11
          = Except.error Failure.undefinedBehaviour
      ∧ pickPhysicalDevice exampleDriverManyPresentModes 7
          = Except.error Failure.undefinedBehaviour := by
  decide

/-! ## Swap-chain negotiation: claims -/

theorem castUInt32_of_nonneg (i : Int) (h0 : 0 ≤ i) (h1 : i ≤ 2147483647) :
    castUInt32 i = i.toNat := by
  unfold castUInt32
  rw [Int.emod_eq_of_lt h0 (by omega)]

theorem stdClamp_eq_clampedInto (v : Int) (lo hi : Nat) (h0 : 0 ≤ v) (hle : lo ≤ hi) :
    stdClamp v.toNat lo hi = clampedInto v lo hi := by
  unfold stdClamp clampedInto
  have hv : ((v.toNat : Nat) : Int) = v := Int.toNat_of_nonneg h0
  by_cases h1 : v.toNat < lo
  · rw [if_pos h1]
    have : max (lo : Int) (min v (hi : Int)) = lo := by omega
    rw [this]; rfl
  · rw [if_neg h1]
    by_cases h2 : hi < v.toNat
    · rw [if_pos h2]
      have : max (lo : Int) (min v (hi : Int)) = hi := by omega
      rw [this]; rfl
    · rw [if_neg h2]
      have : max (lo : Int) (min v (hi : Int)) = v := by omega
      rw [this]

/-- C4: when the current extent is the "no preference" sentinel, `chooseSwapExtent`
returns the framebuffer size `(w, h)` reported by the window (two non-negative
`int`s) with `w` clamped into `[minImageExtent.width, maxImageExtent.width]` and `h`
clamped into `[minImageExtent.height, maxImageExtent.height]`, each axis on its own;
the bounds satisfy `min ≤ max`, as `std::clamp` requires. -/
theorem chooseSwapExtent_sentinel_clamps (capabilities : VkSurfaceCapabilitiesKHR)
    (w h : Int)
    (hsentinel : capabilities.currentExtent = noPreferenceExtent)
    (hw0 : 0 ≤ w) (hw1 : w ≤ 2147483647) (hh0 : 0 ≤ h) (hh1 : h ≤ 2147483647)
    (hwidth : capabilities.minImageExtent.width ≤ capabilities.maxImageExtent.width)
    (hheight : capabilities.minImageExtent.height ≤ capabilities.maxImageExtent.height) :
    chooseSwapExtent capabilities (w, h) =
      ⟨clampedInto w capabilities.minImageExtent.width capabilities.maxImageExtent.width,
        clampedInto h capabilities.minImageExtent.height
          capabilities.maxImageExtent.height⟩ := by
  have hcur : capabilities.currentExtent.width = UINT32_MAX := by
    rw [hsentinel]; rfl
  unfold chooseSwapExtent
  rw [if_neg (by simp [hcur])]
  simp only [castUInt32_of_nonneg w hw0 hw1, castUInt32_of_nonneg h hh0 hh1,
    stdClamp_eq_clampedInto w _ _ hw0 hwidth, stdClamp_eq_clampedInto h _ _ hh0 hheight]

/-- C4, witness: min = (64, 64), max = (4096, 4096), framebuffer = (10, 5000) gives
(64, 4096). -/
theorem chooseSwapExtent_sentinel_clamps_witness :
    chooseSwapExtent exampleCapabilities (10, 5000) = ⟨64, 4096⟩ :=
  chooseSwapExtent_sentinel_clamps exampleCapabilities 10 5000 (by decide) (by decide)
    (by decide) (by decide) (by decide) (by decide) (by decide)

/-- C5, counterexample: the current extent (4294967295, 600) is not the sentinel
extent, yet with a framebuffer of 800 by 600 `chooseSwapExtent` returns (800, 600)
and not the current extent. -/
theorem chooseSwapExtent_width_only_test :
    (⟨2, 0, ⟨UINT32_MAX, 600⟩, ⟨64, 64⟩, ⟨4096, 4096⟩, 1⟩ :
        VkSurfaceCapabilitiesKHR).currentExtent ≠ noPreferenceExtent
      ∧ chooseSwapExtent ⟨2, 0, ⟨UINT32_MAX, 600⟩, ⟨64, 64⟩, ⟨4096, 4096⟩, 1⟩ (800, 600)
          = ⟨800, 600⟩
      ∧ chooseSwapExtent ⟨2, 0, ⟨UINT32_MAX, 600⟩, ⟨64, 64⟩, ⟨4096, 4096⟩, 1⟩ (800, 600)
          ≠ ⟨UINT32_MAX, 600⟩ := by
  decide

/-- C5, amended: when the width of the current extent is not 4294967295,
`chooseSwapExtent` returns the current extent unchanged, width and height, for every
framebuffer size and all min/max bounds. -/
theorem chooseSwapExtent_fixed_extent (capabilities : VkSurfaceCapabilitiesKHR)
    (framebuffer : Int × Int)
    (hwidth : capabilities.currentExtent.width ≠ UINT32_MAX) :
    chooseSwapExtent capabilities framebuffer = capabilities.currentExtent := by
  unfold chooseSwapExtent
  rw [if_pos hwidth]

/-- C5, witness: a surface fixed at 1280 by 720 keeps that extent under a framebuffer
of 10 by 5000. -/
theorem chooseSwapExtent_fixed_extent_witness :
    chooseSwapExtent ⟨2, 0, ⟨1280, 720⟩, ⟨64, 64⟩, ⟨4096, 4096⟩, 1⟩ (10, 5000)
      = ⟨1280, 720⟩ :=
  chooseSwapExtent_fixed_extent ⟨2, 0, ⟨1280, 720⟩, ⟨64, 64⟩, ⟨4096, 4096⟩, 1⟩ (10, 5000)
    (by decide)

/-- C6, counterexample: with `minImageCount` = 4294967295 and no maximum the
requested count is 0, not one more than `minImageCount`. -/
theorem chooseImageCount_wraps :
    chooseImageCount ⟨4294967295, 0, noPreferenceExtent, ⟨64, 64⟩, ⟨4096, 4096⟩, 1⟩ = 0
      ∧ chooseImageCount ⟨4294967295, 0, noPreferenceExtent, ⟨64, 64⟩, ⟨4096, 4096⟩, 1⟩
          ≠ 4294967295 + 1 := by
  decide

/-- C6, amended: when `minImageCount` is less than 4294967295 the image count
requested is `minImageCount + 1`, replaced by `maxImageCount` when `maxImageCount`
is nonzero and smaller; whenever `maxImageCount` is nonzero the requested count does
not exceed it. -/
theorem chooseImageCount_spec (capabilities : VkSurfaceCapabilitiesKHR)
    (hmin : capabilities.minImageCount < UINT32_MAX) :
    chooseImageCount capabilities =
        (if capabilities.maxImageCount = 0 then capabilities.minImageCount + 1
          else min (capabilities.minImageCount + 1) capabilities.maxImageCount)
      ∧ (capabilities.maxImageCount ≠ 0 →
          chooseImageCount capabilities ≤ capabilities.maxImageCount) := by
  unfold UINT32_MAX at hmin
  have hmod : (capabilities.minImageCount + 1) % 4294967296
      = capabilities.minImageCount + 1 := Nat.mod_eq_of_lt (by omega)
  unfold chooseImageCount
  simp only [hmod]
  by_cases h0 : capabilities.maxImageCount = 0
  · simp [h0]
  · by_cases h1 : capabilities.minImageCount + 1 > capabilities.maxImageCount
    · rw [if_pos ⟨Nat.pos_of_ne_zero h0, h1⟩, if_neg h0]
      exact ⟨by omega, fun _ => Nat.le_refl _⟩
    · rw [if_neg (fun h => h1 h.2), if_neg h0]
      exact ⟨by omega, fun _ => by omega⟩

/-- C6, witness: min = 2 with max = 2 requests 2. -/
theorem chooseImageCount_spec_witness :
    chooseImageCount ⟨2, 2, noPreferenceExtent, ⟨64, 64⟩, ⟨4096, 4096⟩, 1⟩ = 2
      ∧ chooseImageCount exampleCapabilities = 3 :=
  ⟨(chooseImageCount_spec ⟨2, 2, noPreferenceExtent, ⟨64, 64⟩, ⟨4096, 4096⟩, 1⟩
      (by decide)).1,
    (chooseImageCount_spec exampleCapabilities (by decide)).1⟩

theorem chooseSwapSurfaceFormatLoop_some (formats : List VkSurfaceFormatKHR)
    (f : VkSurfaceFormatKHR) (h : chooseSwapSurfaceFormatLoop formats = some f) :
    f = preferredSurfaceFormat ∧ f ∈ formats := by
  induction formats with
  | nil => simp [chooseSwapSurfaceFormatLoop] at h
  | cons a rest ih =>
    unfold chooseSwapSurfaceFormatLoop at h
    by_cases ha : a.format = VK_FORMAT_B8G8R8A8_SRGB
        ∧ a.colorSpace = VK_COLOR_SPACE_SRGB_NONLINEAR_KHR
    · rw [if_pos ha] at h
      cases h
      refine ⟨?_, List.mem_cons_self _ _⟩
      cases f with
      | mk fmt cs =>
        simp only at ha
        rw [ha.1, ha.2]
        rfl
    · rw [if_neg ha] at h
      exact ⟨(ih h).1, List.mem_cons_of_mem _ (ih h).2⟩

theorem chooseSwapSurfaceFormatLoop_none (formats : List VkSurfaceFormatKHR) :
    chooseSwapSurfaceFormatLoop formats = none ↔ preferredSurfaceFormat ∉ formats := by
  induction formats with
  | nil => simp [chooseSwapSurfaceFormatLoop]
  | cons a rest ih =>
    unfold chooseSwapSurfaceFormatLoop
    by_cases ha : a.format = VK_FORMAT_B8G8R8A8_SRGB
        ∧ a.colorSpace = VK_COLOR_SPACE_SRGB_NONLINEAR_KHR
    · rw [if_pos ha]
      have hp : a = preferredSurfaceFormat := by
        cases a with
        | mk fmt cs =>
          simp only at ha
          rw [ha.1, ha.2]
          rfl
      simp [hp]
    · rw [if_neg ha, ih]
      have hp : preferredSurfaceFormat ≠ a := by
        intro h
        apply ha
        rw [← h]
        exact ⟨rfl, rfl⟩
      simp [hp]

/-- C7: on a non-empty list of surface formats `chooseSwapSurfaceFormat` returns the
preferred pair when it occurs in the list and the first entry of the list when it
does not; the result is an element of the list in both cases. -/
theorem chooseSwapSurfaceFormat_spec (availableFormats : List VkSurfaceFormatKHR)
    (hne : availableFormats ≠ []) :
    (preferredSurfaceFormat ∈ availableFormats →
        chooseSwapSurfaceFormat availableFormats = some preferredSurfaceFormat)
      ∧ (preferredSurfaceFormat ∉ availableFormats →
        chooseSwapSurfaceFormat availableFormats = some (availableFormats.head hne))
      ∧ (∃ f, chooseSwapSurfaceFormat availableFormats = some f ∧ f ∈ availableFormats) := by
  unfold chooseSwapSurfaceFormat
  cases hl : chooseSwapSurfaceFormatLoop availableFormats with
  | none =>
    have hnot := (chooseSwapSurfaceFormatLoop_none availableFormats).1 hl
    cases availableFormats with
    | nil => exact absurd rfl hne
    | cons a rest =>
      exact ⟨fun h => absurd h hnot, fun _ => rfl, a, rfl, List.mem_cons_self _ _⟩
  | some f =>
    have hf := chooseSwapSurfaceFormatLoop_some availableFormats f hl
    refine ⟨fun _ => by rw [hf.1], fun h => ?_, f, rfl, hf.2⟩
    exact absurd (hf.1 ▸ hf.2) h

/-- C7, witness: the preferred pair in second position is returned. -/
theorem chooseSwapSurfaceFormat_spec_witness :
    chooseSwapSurfaceFormat [⟨44, 0⟩, ⟨50, 0⟩] = some preferredSurfaceFormat :=
  (chooseSwapSurfaceFormat_spec [⟨44, 0⟩, ⟨50, 0⟩] (by decide)).1 (by decide)

/-- C8: on every list of presentation modes, the empty one included,
`chooseSwapPresentMode` returns the mailbox mode when it occurs in the list and the
FIFO mode otherwise, and never another mode. -/
theorem chooseSwapPresentMode_spec (availablePresentModes : List Nat) :
    (VK_PRESENT_MODE_MAILBOX_KHR ∈ availablePresentModes →
        chooseSwapPresentMode availablePresentModes = VK_PRESENT_MODE_MAILBOX_KHR)
      ∧ (VK_PRESENT_MODE_MAILBOX_KHR ∉ availablePresentModes →
        chooseSwapPresentMode availablePresentModes = VK_PRESENT_MODE_FIFO_KHR)
      ∧ (chooseSwapPresentMode availablePresentModes = VK_PRESENT_MODE_MAILBOX_KHR
        ∨ chooseSwapPresentMode availablePresentModes = VK_PRESENT_MODE_FIFO_KHR) := by
  induction availablePresentModes with
  | nil => simp [chooseSwapPresentMode]
  | cons m rest ih =>
    unfold chooseSwapPresentMode
    by_cases hm : m = VK_PRESENT_MODE_MAILBOX_KHR
    · rw [if_pos hm]
      simp [hm]
    · rw [if_neg hm]
      have hm2 : ¬ VK_PRESENT_MODE_MAILBOX_KHR = m := fun h => hm h.symm
      simp only [List.mem_cons, hm2, false_or]
      exact ih

theorem chooseSwapSurfaceFormat_isSome (formats : List VkSurfaceFormatKHR)
    (hne : formats ≠ []) : ∃ f, chooseSwapSurfaceFormat formats = some f := by
  unfold chooseSwapSurfaceFormat
  cases hl : chooseSwapSurfaceFormatLoop formats with
  | none =>
    cases formats with
    | nil => exact absurd rfl hne
    | cons a rest => exact ⟨a, rfl⟩
  | some f => exact ⟨f, rfl⟩

/-- C9: for the selected device and the complete pair of queue-family indices
`(g, p)` found for it, `createSwapChain` builds its creation request, and in it the
sharing mode is concurrent with the two-entry index list `g, p` exactly when `g` and
`p` differ; when they are equal the mode is exclusive and no index list is given. -/
theorem swapChainCreateInfo_sharing (drv : Driver) (surface : VkSurfaceKHR)
    (dev : VkPhysicalDevice) (g p : Nat)
    (hselected : pickPhysicalDevice drv surface = Except.ok dev)
    (hindices : findQueueFamilies drv surface dev = ⟨some g, some p⟩) :
    ∃ createInfo, swapChainCreateInfo drv surface dev = Except.ok createInfo
      ∧ ((createInfo.imageSharingMode = VK_SHARING_MODE_CONCURRENT
            ∧ createInfo.queueFamilyIndexCount = 2
            ∧ createInfo.pQueueFamilyIndices = some [g, p]) ↔ g ≠ p)
      ∧ (g = p → createInfo.imageSharingMode = VK_SHARING_MODE_EXCLUSIVE
            ∧ createInfo.queueFamilyIndexCount = 0
            ∧ createInfo.pQueueFamilyIndices = none) := by
  have hsuit := (pickPhysicalDevice_ok drv surface dev hselected).2
  have hok := isDeviceSuitable_ok drv surface dev true hsuit
  have hprops := hok.2.symm
  simp only [Bool.and_eq_true] at hprops
  have hq := querySwapChainSupport_eq drv surface dev
  rw [if_pos hok.1] at hq
  have hfmt : drv.surfaceFormats dev surface ≠ [] := by
    intro hnil
    have := hprops.2
    simp [reportsSurfaceFormat, hnil] at this
  obtain ⟨f, hf⟩ := chooseSwapSurfaceFormat_isSome _ hfmt
  unfold swapChainCreateInfo
  simp only [hq, hf, hindices, optionalValue]
  by_cases hgp : g = p
  · subst hgp
    simp [VK_SHARING_MODE_EXCLUSIVE, VK_SHARING_MODE_CONCURRENT]
  · have hne : (some g : Option Nat) ≠ some p := fun h => hgp (Option.some.inj h)
    simp [hgp, VK_SHARING_MODE_EXCLUSIVE, VK_SHARING_MODE_CONCURRENT]

/-- C9, witness: on the example machine the selected device 12 has graphics family 0
and presentation family 1 and the request is concurrent over the list 0, 1; when
family 0 serves both roles the request is exclusive without an index list. -/
theorem swapChainCreateInfo_sharing_witness :
    (∃ createInfo, swapChainCreateInfo exampleDriver 7 12 = Except.ok createInfo
        ∧ createInfo.imageSharingMode = VK_SHARING_MODE_CONCURRENT
        ∧ createInfo.queueFamilyIndexCount = 2
        ∧ createInfo.pQueueFamilyIndices = some [0, 1])
      ∧ (∃ createInfo,
          swapChainCreateInfo exampleDriverSharedFamily 7 12 = Except.ok createInfo
            ∧ createInfo.imageSharingMode = VK_SHARING_MODE_EXCLUSIVE
            ∧ createInfo.queueFamilyIndexCount = 0
            ∧ createInfo.pQueueFamilyIndices = none) := by
  refine ⟨?_, ?_⟩
  · obtain ⟨createInfo, h, hiff, _⟩ :=
      swapChainCreateInfo_sharing exampleDriver 7 12 0 1 (by decide) (by decide)
    exact ⟨createInfo, h, hiff.2 (by decide)⟩
  · obtain ⟨createInfo, h, _, heq⟩ :=
      swapChainCreateInfo_sharing exampleDriverSharedFamily 7 12 0 0 (by decide) (by decide)
    exact ⟨createInfo, h, heq rfl⟩

/-! ## Bring-up and shutdown: claims -/

theorem createInstance_ok (drv : Driver) (v : Bool) (app app1 : App)
    (h : createInstance drv v app = Except.ok app1) :
    app1 = app.record (Event.create Resource.vkInstance) := by
  unfold createInstance at h
  split at h
  · cases h
  · split at h
    · cases h
    · split at h
      · cases h
      · cases h; rfl

theorem setupDebugMessenger_ok (drv : Driver) (app app1 : App)
    (h : setupDebugMessenger drv true app = Except.ok app1) :
    app1 = app.record (Event.create Resource.debugMessenger) := by
  unfold setupDebugMessenger at h
  simp only [Bool.not_true, Bool.false_eq_true, if_false] at h
  split at h
  · cases h
  · cases h; rfl

theorem createSurface_ok (drv : Driver) (app app1 : App)
    (h : createSurface drv app = Except.ok app1) :
    app1.log = app.log ++ [Event.create Resource.surface] := by
  unfold createSurface at h
  split at h
  · cases h
  · cases h; rfl

theorem pickPhysicalDeviceStage_ok (drv : Driver) (app app1 : App)
    (h : pickPhysicalDeviceStage drv app = Except.ok app1) :
    app1.log = app.log := by
  unfold pickPhysicalDeviceStage at h
  split at h
  · cases h
  · cases h; rfl

theorem createLogicalDeviceStage_ok (drv : Driver) (app app1 : App)
    (h : createLogicalDeviceStage drv app = Except.ok app1) :
    app1.log = app.log ++ [Event.create Resource.device] := by
  unfold createLogicalDeviceStage at h
  split at h
  · cases h
  · split at h
    · cases h
    · cases h; rfl

theorem createSwapChain_ok (drv : Driver) (app app1 : App)
    (h : createSwapChain drv app = Except.ok app1) :
    app1.log = app.log ++ [Event.create Resource.swapChain]
      ∧ app1.swapChainImages = drv.swapchainImages := by
  unfold createSwapChain at h
  split at h
  · cases h
  · split at h
    · cases h
    · split at h
      · cases h
      · cases h; exact ⟨rfl, rfl⟩

theorem createImageViewsLoop_ok (drv : Driver) (images : List Nat) :
    ∀ (i : Nat) (app app1 : App),
      createImageViewsLoop drv images i app = Except.ok app1 →
        app1.log = app.log
            ++ (List.range' i images.length).map (fun k => Event.create (Resource.imageView k))
          ∧ app1.swapChainImageViews = app.swapChainImageViews
            ++ (List.range' i images.length).map Resource.imageView := by
  induction images with
  | nil =>
    intro i app app1 h
    unfold createImageViewsLoop at h
    cases h
    simp
  | cons img rest ih =>
    intro i app app1 h
    unfold createImageViewsLoop at h
    split at h
    · cases h
    · have h2 := ih (i + 1) _ app1 h
      simp only [List.length_cons, List.range'_succ, List.map_cons]
      refine ⟨?_, ?_⟩
      · rw [h2.1, List.append_assoc]; rfl
      · rw [h2.2, List.append_assoc]; rfl

theorem createImageViews_ok (drv : Driver) (app app1 : App)
    (h : createImageViews drv app = Except.ok app1) :
    app1.log = app.log ++ (imageViews app.swapChainImages.length).map Event.create
      ∧ app1.swapChainImageViews = imageViews app.swapChainImages.length := by
  unfold createImageViews at h
  have h2 := createImageViewsLoop_ok drv app.swapChainImages 0 _ app1 h
  unfold imageViews
  rw [List.range_eq_range']
  refine ⟨?_, ?_⟩
  · rw [h2.1, List.map_map]; rfl
  · rw [h2.2]; rfl

theorem initVulkan_ok (drv : Driver) (app app1 : App)
    (h : initVulkan drv true app = Except.ok app1) :
    app1.log = app.log
        ++ [Event.create Resource.vkInstance, Event.create Resource.debugMessenger,
          Event.create Resource.surface, Event.create Resource.device,
          Event.create Resource.swapChain]
        ++ (imageViews drv.swapchainImages.length).map Event.create
      ∧ app1.swapChainImageViews = imageViews drv.swapchainImages.length := by
  unfold initVulkan at h
  simp only [bind, Except.bind, pure, Except.pure, createGraphicsPipeline] at h
  cases h1 : createInstance drv true app with
  | error e => rw [h1] at h; cases h
  | ok a1 =>
    rw [h1] at h; simp only at h
    cases h2 : setupDebugMessenger drv true a1 with
    | error e => rw [h2] at h; cases h
    | ok a2 =>
      rw [h2] at h; simp only at h
      cases h3 : createSurface drv a2 with
      | error e => rw [h3] at h; cases h
      | ok a3 =>
        rw [h3] at h; simp only at h
        cases h4 : pickPhysicalDeviceStage drv a3 with
        | error e => rw [h4] at h; cases h
        | ok a4 =>
          rw [h4] at h; simp only at h
          cases h5 : createLogicalDeviceStage drv a4 with
          | error e => rw [h5] at h; cases h
          | ok a5 =>
            rw [h5] at h; simp only at h
            cases h6 : createSwapChain drv a5 with
            | error e => rw [h6] at h; cases h
            | ok a6 =>
              rw [h6] at h; simp only at h
              cases h7 : createImageViews drv a6 with
              | error e => rw [h7] at h; cases h
              | ok a7 =>
                rw [h7] at h; simp only at h
                cases h
                have e1 := createInstance_ok drv true app a1 h1
                have e2 := setupDebugMessenger_ok drv a1 a2 h2
                have e3 := createSurface_ok drv a2 a3 h3
                have e4 := pickPhysicalDeviceStage_ok drv a3 a4 h4
                have e5 := createLogicalDeviceStage_ok drv a4 a5 h5
                have e6 := createSwapChain_ok drv a5 a6 h6
                have e7 := createImageViews_ok drv a6 app1 h7
                rw [e6.2] at e7
                refine ⟨?_, e7.2⟩
                rw [e7.1, e6.1, e5, e4, e3, e2, e1]
                simp [App.record]

theorem mainLoop_eq (polls : Nat) (app : App) : mainLoop polls app = app := by
  induction polls with
  | zero => rfl
  | succ n ih => unfold mainLoop; exact ih

theorem foldl_record_log (views : List Resource) :
    ∀ app : App,
      (views.foldl (fun a imageView => a.record (Event.destroy imageView)) app).log
        = app.log ++ views.map Event.destroy := by
  induction views with
  | nil => intro app; simp
  | cons v rest ih =>
    intro app
    rw [List.foldl_cons, ih]
    simp [App.record]

theorem foldl_record_views (views : List Resource) :
    ∀ app : App,
      (views.foldl (fun a imageView => a.record (Event.destroy imageView)) app).swapChainImageViews
        = app.swapChainImageViews := by
  induction views with
  | nil => intro app; rfl
  | cons v rest ih =>
    intro app
    rw [List.foldl_cons, ih]
    rfl

theorem cleanup_log (drv : Driver) (app : App)
    (hdestroy : drv.instanceProcAddr "vkDestroyDebugUtilsMessengerEXT" = true) :
    (cleanup drv true app).log = app.log ++ [Event.destroy Resource.debugMessenger]
      ++ app.swapChainImageViews.map Event.destroy
      ++ [Event.destroy Resource.swapChain, Event.destroy Resource.device,
        Event.destroy Resource.surface, Event.destroy Resource.vkInstance,
        Event.destroy Resource.window] := by
  unfold cleanup
  have hlog : ∀ (a : App) (e : Event), (a.record e).log = a.log ++ [e] := fun _ _ => rfl
  have hviews : ∀ (a : App) (e : Event),
      (a.record e).swapChainImageViews = a.swapChainImageViews := fun _ _ => rfl
  simp only [if_true, destroyDebugUtilsMessengerEXT, hdestroy, hlog, hviews,
    foldl_record_log]
  simp

theorem createdResources_append (l1 l2 : List Event) :
    createdResources (l1 ++ l2) = createdResources l1 ++ createdResources l2 := by
  induction l1 with
  | nil => rfl
  | cons e rest ih => cases e <;> simp [createdResources, ih]

theorem destroyedResources_append (l1 l2 : List Event) :
    destroyedResources (l1 ++ l2) = destroyedResources l1 ++ destroyedResources l2 := by
  induction l1 with
  | nil => rfl
  | cons e rest ih => cases e <;> simp [destroyedResources, ih]

theorem createdResources_map_create (rs : List Resource) :
    createdResources (rs.map Event.create) = rs := by
  induction rs with
  | nil => rfl
  | cons r rest ih => simp [createdResources, ih]

theorem createdResources_map_destroy (rs : List Resource) :
    createdResources (rs.map Event.destroy) = [] := by
  induction rs with
  | nil => rfl
  | cons r rest ih => simp [createdResources, ih]

theorem destroyedResources_map_create (rs : List Resource) :
    destroyedResources (rs.map Event.create) = [] := by
  induction rs with
  | nil => rfl
  | cons r rest ih => simp [destroyedResources, ih]

theorem destroyedResources_map_destroy (rs : List Resource) :
    destroyedResources (rs.map Event.destroy) = rs := by
  induction rs with
  | nil => rfl
  | cons r rest ih => simp [destroyedResources, ih]

theorem run_log (drv : Driver) (log : List Event)
    (hrun : run drv true = Except.ok log)
    (hdestroy : drv.instanceProcAddr "vkDestroyDebugUtilsMessengerEXT" = true) :
    log = [Event.create Resource.window, Event.create Resource.vkInstance,
          Event.create Resource.debugMessenger, Event.create Resource.surface,
          Event.create Resource.device, Event.create Resource.swapChain]
        ++ (imageViews drv.swapchainImages.length).map Event.create
        ++ [Event.destroy Resource.debugMessenger]
        ++ (imageViews drv.swapchainImages.length).map Event.destroy
        ++ [Event.destroy Resource.swapChain, Event.destroy Resource.device,
          Event.destroy Resource.surface, Event.destroy Resource.vkInstance,
          Event.destroy Resource.window] := by
  unfold run at hrun
  simp only [bind, Except.bind, pure, Except.pure] at hrun
  cases hinit : initVulkan drv true (initWindow App.initial) with
  | error e => rw [hinit] at hrun; cases hrun
  | ok app2 =>
    rw [hinit] at hrun
    simp only [mainLoop_eq] at hrun
    cases hrun
    have h2 := initVulkan_ok drv _ app2 hinit
    rw [cleanup_log drv app2 hdestroy, h2.1, h2.2]
    simp [initWindow, App.record, App.initial]

/-- C10, counterexample: on the example machine, with validation enabled, `run`
succeeds and the resources are not destroyed in the reverse of the order in which
they were created: the debug messenger, created third, is destroyed first, and the
three image views are destroyed in the order of their creation. -/
theorem run_destruction_not_reverse :
    (∃ log, run exampleDriver true = Except.ok log
        ∧ createdResources log = [Resource.window, Resource.vkInstance,
            Resource.debugMessenger, Resource.surface, Resource.device, Resource.swapChain,
            Resource.imageView 0, Resource.imageView 1, Resource.imageView 2]
        ∧ destroyedResources log = [Resource.debugMessenger, Resource.imageView 0,
            Resource.imageView 1, Resource.imageView 2, Resource.swapChain,
            Resource.device, Resource.surface, Resource.vkInstance, Resource.window]
        ∧ destroyedResources log ≠ (createdResources log).reverse) := by
  refine ⟨_, rfl, ?_, ?_, ?_⟩ <;> decide

/-- C10, amended: in a successful run with validation enabled (the driver exposing
`vkDestroyDebugUtilsMessengerEXT`), the resources are created in the order window,
instance, debug messenger, surface, device, swap chain, image views, and `cleanup`
destroys them in the order debug messenger, image views in the order of their
creation, swap chain, device, surface, instance, window, after all creations. -/
theorem run_creation_and_destruction_order (drv : Driver) (log : List Event)
    (hrun : run drv true = Except.ok log)
    (hdestroy : drv.instanceProcAddr "vkDestroyDebugUtilsMessengerEXT" = true) :
    createdResources log = [Resource.window, Resource.vkInstance, Resource.debugMessenger,
          Resource.surface, Resource.device, Resource.swapChain]
        ++ imageViews drv.swapchainImages.length
      ∧ destroyedResources log = [Resource.debugMessenger]
        ++ imageViews drv.swapchainImages.length
        ++ [Resource.swapChain, Resource.device, Resource.surface, Resource.vkInstance,
          Resource.window]
      ∧ log = (createdResources log).map Event.create
        ++ (destroyedResources log).map Event.destroy := by
  have hlog := run_log drv log hrun hdestroy
  have hc : createdResources log = [Resource.window, Resource.vkInstance,
      Resource.debugMessenger, Resource.surface, Resource.device, Resource.swapChain]
        ++ imageViews drv.swapchainImages.length := by
    rw [hlog]
    simp [createdResources_append, createdResources_map_create,
      createdResources_map_destroy, createdResources]
  have hd : destroyedResources log = [Resource.debugMessenger]
        ++ imageViews drv.swapchainImages.length
        ++ [Resource.swapChain, Resource.device, Resource.surface, Resource.vkInstance,
          Resource.window] := by
    rw [hlog]
    simp [destroyedResources_append, destroyedResources_map_create,
      destroyedResources_map_destroy, destroyedResources]
  refine ⟨hc, hd, ?_⟩
  rw [hc, hd]
  rw [hlog]
  simp

/-- C10, witness: the run on the example machine, whose swap chain has three
images. -/
theorem run_creation_and_destruction_order_witness :
    ∃ log, run exampleDriver true = Except.ok log
      ∧ createdResources log = [Resource.window, Resource.vkInstance,
          Resource.debugMessenger, Resource.surface, Resource.device, Resource.swapChain]
        ++ imageViews 3
      ∧ destroyedResources log = [Resource.debugMessenger] ++ imageViews 3
        ++ [Resource.swapChain, Resource.device, Resource.surface, Resource.vkInstance,
          Resource.window] :=
  ⟨_, rfl,
    (run_creation_and_destruction_order exampleDriver _ rfl (by decide)).1,
    (run_creation_and_destruction_order exampleDriver _ rfl (by decide)).2.1⟩

/-! ## Queue families: claims -/

theorem findQueueFamiliesStep_graphicsFamily (drv : Driver) (surface : VkSurfaceKHR)
    (dev : VkPhysicalDevice) (q : VkQueueFamilyProperties) (index : Nat)
    (ind : QueueFamilyIndices) :
    (findQueueFamiliesStep drv surface dev q index ind).graphicsFamily =
      if q.queueFlags &&& VK_QUEUE_GRAPHICS_BIT ≠ 0 then some index
      else ind.graphicsFamily := by
  unfold findQueueFamiliesStep
  by_cases hg : q.queueFlags &&& VK_QUEUE_GRAPHICS_BIT = 0 <;>
    by_cases hp : drv.surfaceSupport dev index surface = true <;> simp [hg, hp]

theorem findQueueFamiliesStep_presentFamily (drv : Driver) (surface : VkSurfaceKHR)
    (dev : VkPhysicalDevice) (q : VkQueueFamilyProperties) (index : Nat)
    (ind : QueueFamilyIndices) :
    (findQueueFamiliesStep drv surface dev q index ind).presentFamily =
      if drv.surfaceSupport dev index surface = true then some index
      else ind.presentFamily := by
  unfold findQueueFamiliesStep
  by_cases hg : q.queueFlags &&& VK_QUEUE_GRAPHICS_BIT = 0 <;>
    by_cases hp : drv.surfaceSupport dev index surface = true <;> simp [hg, hp]

/-- A graphics index returned by the loop is the one it started with or the position
of a visited family that has the graphics flag. -/
theorem findQueueFamiliesLoop_graphicsFamily (drv : Driver) (surface : VkSurfaceKHR)
    (dev : VkPhysicalDevice) (qs : List VkQueueFamilyProperties) :
    ∀ (index : Nat) (ind : QueueFamilyIndices) (i : Nat),
      (findQueueFamiliesLoop drv surface dev qs index ind).graphicsFamily = some i →
        ind.graphicsFamily = some i
          ∨ (index ≤ i ∧ ∃ q, qs[i - index]? = some q
              ∧ q.queueFlags &&& VK_QUEUE_GRAPHICS_BIT ≠ 0) := by
  induction qs with
  | nil => intro index ind i h; exact Or.inl h
  | cons q rest ih =>
    intro index ind i h
    have hstep : ∀ i, (findQueueFamiliesStep drv surface dev q index ind).graphicsFamily
        = some i → ind.graphicsFamily = some i
          ∨ (index ≤ i ∧ ∃ q2, (q :: rest)[i - index]? = some q2
              ∧ q2.queueFlags &&& VK_QUEUE_GRAPHICS_BIT ≠ 0) := by
      intro i hi
      rw [findQueueFamiliesStep_graphicsFamily] at hi
      by_cases hg : q.queueFlags &&& VK_QUEUE_GRAPHICS_BIT ≠ 0
      · rw [if_pos hg] at hi
        cases hi
        exact Or.inr ⟨Nat.le_refl _, q, by simp, hg⟩
      · rw [if_neg hg] at hi
        exact Or.inl hi
    unfold findQueueFamiliesLoop at h
    simp only at h
    by_cases hc : (findQueueFamiliesStep drv surface dev q index ind).isComplete = true
    · rw [if_pos hc] at h
      exact hstep i h
    · rw [if_neg hc] at h
      rcases ih (index + 1) _ i h with h1 | ⟨hle, q2, hq2, hflag⟩
      · exact hstep i h1
      · refine Or.inr ⟨by omega, q2, ?_, hflag⟩
        have hidx : i - index = (i - (index + 1)) + 1 := by omega
        rw [hidx, List.getElem?_cons_succ]
        exact hq2

/-- A presentation index returned by the loop is the one it started with or the
position of a visited family that can present. -/
theorem findQueueFamiliesLoop_presentFamily (drv : Driver) (surface : VkSurfaceKHR)
    (dev : VkPhysicalDevice) (qs : List VkQueueFamilyProperties) :
    ∀ (index : Nat) (ind : QueueFamilyIndices) (j : Nat),
      (findQueueFamiliesLoop drv surface dev qs index ind).presentFamily = some j →
        ind.presentFamily = some j
          ∨ (index ≤ j ∧ j < index + qs.length
              ∧ drv.surfaceSupport dev j surface = true) := by
  induction qs with
  | nil => intro index ind j h; exact Or.inl h
  | cons q rest ih =>
    intro index ind j h
    have hstep : ∀ j, (findQueueFamiliesStep drv surface dev q index ind).presentFamily
        = some j → ind.presentFamily = some j
          ∨ (index ≤ j ∧ j < index + (q :: rest).length
              ∧ drv.surfaceSupport dev j surface = true) := by
      intro j hj
      rw [findQueueFamiliesStep_presentFamily] at hj
      by_cases hp : drv.surfaceSupport dev index surface = true
      · rw [if_pos hp] at hj
        cases hj
        exact Or.inr ⟨Nat.le_refl _, by simp, hp⟩
      · rw [if_neg hp] at hj
        exact Or.inl hj
    unfold findQueueFamiliesLoop at h
    simp only at h
    by_cases hc : (findQueueFamiliesStep drv surface dev q index ind).isComplete = true
    · rw [if_pos hc] at h
      exact hstep j h
    · rw [if_neg hc] at h
      rcases ih (index + 1) _ j h with h1 | ⟨hle, hlt, hsup⟩
      · exact hstep j h1
      · refine Or.inr ⟨by omega, ?_, hsup⟩
        simp only [List.length_cons]
        omega

/-- The loop returns the state reached at the first position where both indices are
set, without visiting the families after it. -/
theorem findQueueFamiliesLoop_stops (drv : Driver) (surface : VkSurfaceKHR)
    (dev : VkPhysicalDevice) (qs : List VkQueueFamilyProperties) :
    ∀ (index : Nat) (ind : QueueFamilyIndices) (k : Nat), k < qs.length →
      (findQueueFamiliesScan drv surface dev (qs.take (k + 1)) index ind).isComplete = true →
      (∀ j, j < k →
        (findQueueFamiliesScan drv surface dev (qs.take (j + 1)) index ind).isComplete
          = false) →
      findQueueFamiliesLoop drv surface dev qs index ind
        = findQueueFamiliesScan drv surface dev (qs.take (k + 1)) index ind := by
  induction qs with
  | nil => intro index ind k hk; simp at hk
  | cons q rest ih =>
    intro index ind k hk hcomplete hbefore
    unfold findQueueFamiliesLoop
    simp only
    cases k with
    | zero =>
      simp only [Nat.zero_add, List.take_succ_cons, List.take_zero,
        findQueueFamiliesScan] at hcomplete ⊢
      rw [if_pos hcomplete]
    | succ k2 =>
      have h0 := hbefore 0 (Nat.succ_pos _)
      simp only [Nat.zero_add, List.take_succ_cons, List.take_zero,
        findQueueFamiliesScan] at h0
      rw [if_neg (by simp [h0])]
      simp only [List.take_succ_cons, findQueueFamiliesScan] at hcomplete ⊢
      apply ih (index + 1) _ k2 (by simpa using hk) hcomplete
      intro j hj
      have hj2 := hbefore (j + 1) (by omega)
      simpa only [List.take_succ_cons, findQueueFamiliesScan] using hj2

/-- A loop that ends incomplete has visited every family. -/
theorem findQueueFamiliesLoop_incomplete (drv : Driver) (surface : VkSurfaceKHR)
    (dev : VkPhysicalDevice) (qs : List VkQueueFamilyProperties) :
    ∀ (index : Nat) (ind : QueueFamilyIndices),
      (findQueueFamiliesLoop drv surface dev qs index ind).isComplete = false →
      findQueueFamiliesLoop drv surface dev qs index ind
        = findQueueFamiliesScan drv surface dev qs index ind := by
  induction qs with
  | nil => intro index ind _; rfl
  | cons q rest ih =>
    intro index ind h
    unfold findQueueFamiliesLoop at h ⊢
    simp only at h ⊢
    by_cases hc : (findQueueFamiliesStep drv surface dev q index ind).isComplete = true
    · rw [if_pos hc] at h
      rw [hc] at h
      cases h
    · rw [if_neg hc] at h ⊢
      simp only [findQueueFamiliesScan]
      exact ih (index + 1) _ h

/-- C13: the indices returned by `findQueueFamilies` are complete exactly when some
family of the device has the graphics flag and some family, possibly the same,
supports presentation on the surface; a returned graphics index is the position,
below the number of families, of a family with the graphics flag; a returned
presentation index is a position, below the number of families, at which
presentation is supported; and the scan stops at the first position at which both
indices are set, returning the state reached there, or visits every family when
that never happens. -/
theorem findQueueFamilies_spec (drv : Driver) (surface : VkSurfaceKHR)
    (dev : VkPhysicalDevice) :
    ((findQueueFamilies drv surface dev).isComplete = true ↔
        (graphicsCapable drv dev = true ∧ presentCapable drv surface dev = true))
      ∧ (∀ i, (findQueueFamilies drv surface dev).graphicsFamily = some i →
          i < (drv.queueFamilyProperties dev).length ∧ familyHasGraphics drv dev i = true)
      ∧ (∀ j, (findQueueFamilies drv surface dev).presentFamily = some j →
          j < (drv.queueFamilyProperties dev).length
            ∧ drv.surfaceSupport dev j surface = true)
      ∧ (∀ k, k < (drv.queueFamilyProperties dev).length →
          (indicesAfter drv surface dev (k + 1)).isComplete = true →
          (∀ j, j < k → (indicesAfter drv surface dev (j + 1)).isComplete = false) →
          findQueueFamilies drv surface dev = indicesAfter drv surface dev (k + 1))
      ∧ ((findQueueFamilies drv surface dev).isComplete = false →
          findQueueFamilies drv surface dev
            = indicesAfter drv surface dev (drv.queueFamilyProperties dev).length) := by
  refine ⟨?_, ?_, ?_, ?_, ?_⟩
  · rw [findQueueFamilies_isComplete, Bool.and_eq_true]
  · intro i hi
    unfold findQueueFamilies at hi
    rcases findQueueFamiliesLoop_graphicsFamily drv surface dev _ 0 _ i hi with h | h
    · cases h
    · obtain ⟨_, q, hq, hflag⟩ := h
      simp only [Nat.sub_zero] at hq
      refine ⟨?_, ?_⟩
      · by_contra hlt
        rw [List.getElem?_eq_none (by omega)] at hq
        cases hq
      · unfold familyHasGraphics
        rw [hq]
        simpa using hflag
  · intro j hj
    unfold findQueueFamilies at hj
    rcases findQueueFamiliesLoop_presentFamily drv surface dev _ 0 _ j hj with h | h
    · cases h
    · exact ⟨by omega, h.2.2⟩
  · intro k hk hcomplete hbefore
    exact findQueueFamiliesLoop_stops drv surface dev _ 0 _ k hk hcomplete hbefore
  · intro h
    unfold indicesAfter
    rw [List.take_length]
    exact findQueueFamiliesLoop_incomplete drv surface dev _ 0 _ h

/-- C13, witness: on the example machine family 0 is the graphics family and family
1 the first that can present; the scan ends there with the pair (0, 1), the state
after one family being incomplete. -/
theorem findQueueFamilies_spec_witness :
    findQueueFamilies exampleDriver 7 12 = ⟨some 0, some 1⟩
      ∧ (0 < (exampleDriver.queueFamilyProperties 12).length
          ∧ familyHasGraphics exampleDriver 12 0 = true)
      ∧ (1 < (exampleDriver.queueFamilyProperties 12).length
          ∧ exampleDriver.surfaceSupport 12 1 7 = true)
      ∧ findQueueFamilies exampleDriver 7 12 = indicesAfter exampleDriver 7 12 2 :=
  ⟨rfl, (findQueueFamilies_spec exampleDriver 7 12).2.1 0 rfl,
    (findQueueFamilies_spec exampleDriver 7 12).2.2.1 1 rfl,
    (findQueueFamilies_spec exampleDriver 7 12).2.2.2.1 1 (by decide) (by decide)
      (by decide)⟩

/-! ## Logical device: claims -/

theorem stdSetInsert_pair (g p : Nat) :
    stdSetInsert (stdSetInsert [] g) p =
      if p < g then [p, g] else if p = g then [g] else [g, p] := by
  simp [stdSetInsert]

/-- C11: for the complete pair `(g, p)` found for a device, `createLogicalDevice`
builds one queue-creation request per distinct value among `g` and `p`: the single
request for `g` when `g = p`, two requests with distinct family indices when
`g ≠ p`; every request asks for one queue with priority 1; when `vkCreateDevice`
succeeds these requests are the ones passed to it and the two queue handles are
taken from families `g` and `p`, and otherwise the function throws. -/
theorem createLogicalDevice_requests (drv : Driver) (surface : VkSurfaceKHR)
    (dev : VkPhysicalDevice) (g p : Nat)
    (hindices : findQueueFamilies drv surface dev = ⟨some g, some p⟩) :
    ∃ infos : List VkDeviceQueueCreateInfo,
      (g = p → infos = [⟨g, 1, 1⟩])
        ∧ (g ≠ p → infos.length = 2)
        ∧ (infos.map VkDeviceQueueCreateInfo.queueFamilyIndex).Nodup
        ∧ (∀ family, family ∈ infos.map VkDeviceQueueCreateInfo.queueFamilyIndex ↔
            (family = g ∨ family = p))
        ∧ (∀ info ∈ infos, info.queueCount = 1 ∧ info.queuePriority = 1)
        ∧ (drv.createDeviceOk = true →
            createLogicalDevice drv surface dev = Except.ok ⟨infos, deviceExtensions, g, p⟩)
        ∧ (drv.createDeviceOk = false →
            createLogicalDevice drv surface dev
              = Except.error (Failure.runtimeError "Failed to create the logical device!")) := by
  refine ⟨(stdSetInsert (stdSetInsert [] g) p).map (fun family => ⟨family, 1, 1⟩),
    ?_, ?_, ?_, ?_, ?_, ?_, ?_⟩
  · intro h
    subst h
    simp [stdSetInsert_pair]
  · intro h
    rw [stdSetInsert_pair]
    by_cases h1 : p < g
    · simp [h1]
    · have h2 : ¬ p = g := fun h3 => h h3.symm
      simp [h1, h2]
  · rw [stdSetInsert_pair]
    by_cases h1 : p < g
    · simp [h1]; omega
    · by_cases h2 : p = g
      · simp [h2]
      · simp [h1, h2]; omega
  · intro family
    rw [stdSetInsert_pair]
    by_cases h1 : p < g
    · simp [h1]; omega
    · by_cases h2 : p = g
      · simp [h2]
      · simp [h1, h2]
  · intro info hinfo
    simp only [List.mem_map] at hinfo
    obtain ⟨family, _, rfl⟩ := hinfo
    exact ⟨rfl, rfl⟩
  · intro hok
    unfold createLogicalDevice
    simp only [hindices, optionalValue, hok, if_true]
  · intro hfail
    unfold createLogicalDevice
    simp [hindices, optionalValue, hfail]

/-- C11, witness: on the example machine the pair (0, 1) gives the two requests for
families 0 and 1, and a family serving both roles gives the single request for 0. -/
theorem createLogicalDevice_requests_witness :
    (∃ infos : List VkDeviceQueueCreateInfo, infos.length = 2
        ∧ createLogicalDevice exampleDriver 7 12
            = Except.ok ⟨infos, deviceExtensions, 0, 1⟩)
      ∧ (∃ infos : List VkDeviceQueueCreateInfo, infos = [⟨0, 1, 1⟩]
        ∧ createLogicalDevice exampleDriverSharedFamily 7 12
            = Except.ok ⟨infos, deviceExtensions, 0, 0⟩) := by
  refine ⟨?_, ?_⟩
  · obtain ⟨infos, _, hlen, _, _, _, hok, _⟩ :=
      createLogicalDevice_requests exampleDriver 7 12 0 1 (by decide)
    exact ⟨infos, hlen (by decide), hok rfl⟩
  · obtain ⟨infos, hone, _, _, _, _, hok, _⟩ :=
      createLogicalDevice_requests exampleDriverSharedFamily 7 12 0 0 (by decide)
    exact ⟨infos, hone rfl, hok rfl⟩

/-! ## Swap-chain support: claims -/

/-- C12, the code at the failing inputs: with two surface formats and no
presentation mode reported, the present-mode list of `querySwapChainSupport` is the
two value-initialised entries 0, 0 and not the empty list; with presentation modes
2, 1 and no surface format reported, it is empty; with three surface formats and
the presentation modes 2, 1 it is 2, 1, 0. -/
theorem querySwapChainSupport_presentModes_sized_by_formats :
    exampleDriverNoPresentModes.surfacePresentModes 12 7 = []
      ∧ (exampleDriverNoPresentModes.surfaceFormats 12 7).length = 2
      ∧ (querySwapChainSupport exampleDriverNoPresentModes 7 12).map
          SwapChainSupportDetails.presentModes = Except.ok [0, 0]
      ∧ exampleDriverNoFormats.surfacePresentModes 12 7 = [2, 1]
      ∧ exampleDriverNoFormats.surfaceFormats 12 7 = []
      ∧ (querySwapChainSupport exampleDriverNoFormats 7 12).map
          SwapChainSupportDetails.presentModes = Except.ok []
      ∧ exampleDriverThreeFormats.surfacePresentModes 12 7 = [2, 1]
      ∧ (exampleDriverThreeFormats.surfaceFormats 12 7).length = 3
      ∧ (querySwapChainSupport exampleDriverThreeFormats 7 12).map
          SwapChainSupportDetails.presentModes = Except.ok [2, 1, 0] := by
  decide

/-! ## The earlier stage: claims -/

theorem utility_findQueueFamiliesLoop_eq (qs : List VkQueueFamilyProperties) :
    Utility.findQueueFamiliesLoop qs 0 ⟨none⟩ =
      if qs.any (fun q => q.queueFlags &&& VK_QUEUE_GRAPHICS_BIT != 0) = true then ⟨some 0⟩
      else ⟨none⟩ := by
  induction qs with
  | nil => rfl
  | cons q rest ih =>
    unfold Utility.findQueueFamiliesLoop
    by_cases hg : q.queueFlags &&& VK_QUEUE_GRAPHICS_BIT ≠ 0
    · rw [if_pos hg]
      have hc : castUInt32 0 = 0 := by decide
      simp [Utility.QueueFamilyIndices.isComplete, hg, hc]
    · rw [if_neg hg, ih]
      simp only [ne_eq, Decidable.not_not] at hg
      simp [Utility.QueueFamilyIndices.isComplete, hg]

/-- The free function `findQueueFamilies` returns a graphics index exactly when some
family has the graphics flag, and the index it returns is 0 wherever that family
stands in the list. -/
theorem utility_findQueueFamilies_eq (drv : Driver) (device : VkPhysicalDevice) :
    ((Utility.findQueueFamilies drv device).graphicsFamily.isSome
        = graphicsCapable drv device)
      ∧ (∀ i, (Utility.findQueueFamilies drv device).graphicsFamily = some i → i = 0) := by
  unfold Utility.findQueueFamilies graphicsCapable
  rw [utility_findQueueFamiliesLoop_eq]
  cases h : (drv.queueFamilyProperties device).any
      (fun q => q.queueFlags &&& VK_QUEUE_GRAPHICS_BIT != 0) with
  | true =>
    refine ⟨rfl, ?_⟩
    intro i hi
    simp only [if_true] at hi
    cases hi
    rfl
  | false =>
    refine ⟨rfl, ?_⟩
    intro i hi
    simp at hi

/-- C14, the code at the failing input: on a device whose family 0 is compute-only
and whose family 1 is the graphics family, the free function `findQueueFamilies`
returns graphics index 0, a family without the graphics flag, and
`createLogicalDevice` of `Code/main.cpp` requests its queue from family 0. -/
theorem utility_findQueueFamilies_compute_first :
    exampleDriverComputeFirst.queueFamilyProperties 12 = [⟨2⟩, ⟨1⟩]
      ∧ Utility.findQueueFamilies exampleDriverComputeFirst 12 = ⟨some 0⟩
      ∧ familyHasGraphics exampleDriverComputeFirst 12 0 = false
      ∧ familyHasGraphics exampleDriverComputeFirst 12 1 = true
      ∧ Main.createLogicalDevice exampleDriverComputeFirst 12
          = Except.ok ⟨⟨0, 1, 1⟩, 0⟩
      ∧ (findQueueFamilies exampleDriverComputeFirst 7 12).graphicsFamily = some 1 := by
  decide

/-! ## Device extensions: claims -/

/-- C15: `checkDeviceExtensionsSupport` returns true exactly when every required
device extension name, that is the swap-chain extension, is equal to one of the
names the device reports; two reported lists with the same names, whatever their
order and however often a name is repeated, give the same result. -/
theorem checkDeviceExtensionsSupport_spec (drv : Driver) (dev : VkPhysicalDevice) :
    (checkDeviceExtensionsSupport drv dev = true ↔
        ∀ name ∈ deviceExtensions, name ∈ drv.deviceExtensionProperties dev)
      ∧ (checkDeviceExtensionsSupport drv dev = true ↔
        VK_KHR_SWAPCHAIN_EXTENSION_NAME ∈ drv.deviceExtensionProperties dev)
      ∧ (∀ (drv2 : Driver) (dev2 : VkPhysicalDevice),
          (∀ name, name ∈ drv2.deviceExtensionProperties dev2 ↔
            name ∈ drv.deviceExtensionProperties dev) →
          checkDeviceExtensionsSupport drv2 dev2 = checkDeviceExtensionsSupport drv dev) := by
  have hiff : ∀ (d : Driver) (x : VkPhysicalDevice),
      checkDeviceExtensionsSupport d x = true ↔
        VK_KHR_SWAPCHAIN_EXTENSION_NAME ∈ d.deviceExtensionProperties x := by
    intro d x
    rw [checkDeviceExtensionsSupport_eq]
    simp [supportsRequiredExtensions, deviceExtensions]
  refine ⟨?_, hiff drv dev, ?_⟩
  · rw [hiff]
    simp [deviceExtensions]
  · intro drv2 dev2 hsame
    have h1 := hiff drv dev
    have h2 := hiff drv2 dev2
    rw [hsame] at h2
    cases hc : checkDeviceExtensionsSupport drv dev with
    | true => exact h2.2 (h1.1 hc)
    | false =>
      cases hc2 : checkDeviceExtensionsSupport drv2 dev2 with
      | false => rfl
      | true =>
        have := h1.2 (h2.1 hc2)
        rw [hc] at this
        cases this

/-- C15, witness: device 12 reports the swap-chain extension and passes, device 13
does not and fails, and a reordered list with a repeated name gives the result of
device 12. -/
theorem checkDeviceExtensionsSupport_spec_witness :
    checkDeviceExtensionsSupport exampleDriver 12 = true
      ∧ checkDeviceExtensionsSupport exampleDriver 13 = false
      ∧ checkDeviceExtensionsSupport exampleDriverRepeatedExtensions 12
          = checkDeviceExtensionsSupport exampleDriver 12 :=
  ⟨(checkDeviceExtensionsSupport_spec exampleDriver 12).2.1.2 (by decide),
    by decide,
    (checkDeviceExtensionsSupport_spec exampleDriver 12).2.2
      exampleDriverRepeatedExtensions 12 (by
        intro name
        have h12 : ¬ ((12 : Nat) = 13) := by decide
        simp only [exampleDriverRepeatedExtensions, exampleDriver, if_neg h12]
        simp only [List.mem_cons, List.mem_singleton, List.not_mem_nil, or_false]
        constructor
        · intro h
          rcases h with h | h | h
          · exact Or.inr h
          · exact Or.inl h
          · exact Or.inr h
        · intro h
          rcases h with h | h
          · exact Or.inr (Or.inl h)
          · exact Or.inl h)⟩

end HelloVulkan
